import Mathlib

/-! # PDF Clip (src/app.js): a shallow embedding and its verified properties

The application keeps one global record `AppState` and drives three external
libraries (PDF.js for rendering, pdf-lib for editing, JSZip for archives).

Modelling conventions used throughout:

* stateful code is explicit state passing over `World`, which holds `AppState`
  together with the observable effects of the code (toast notifications, the
  loading overlay, triggered downloads);
* every call into an external library whose outcome depends on the input file
  or the browser is a field of `Collaborators`, so the `try / catch / finally`
  paths of the source are the `match` arms of the model; two library facts are
  fixed instead: `pdfFont.widthOfTextAtSize` is called on a font name and
  throws, and `save()` first adds a blank page to a document without pages;
* JavaScript numbers are `Int` where the code only handles integers and `ℚ`
  where it divides or uses fractional constants; the view scale only ever takes
  values that are multiples of 0.25, for which binary floating point is exact;
* `NaN` is `none` in an `Option`;
* `PDFLib.PDFDocument.create()`, `new JSZip()` and the DOM updates are taken to
  succeed, and the DOM itself is not part of the state;
* the methods are first modelled running to completion; the section on
  asynchronous execution splits them at their `await`s and lets listeners run
  in between.
-/

namespace PDFClip

/-! ## Data model -/

/-- Raw bytes of a file (`Uint8Array`). -/
abbrev Bytes := List Nat

/-- The members of pdf-lib's `StandardFonts` that the code selects. -/
inductive StandardFonts where
  | Helvetica
  | TimesRoman
  | Courier
  deriving DecidableEq, Repr

/-- The arguments of one `page.drawText(text, options)` call. -/
structure TextDraw where
  text : String
  x : ℚ
  y : ℚ
  size : Int
  font : StandardFonts
  color : ℚ × ℚ × ℚ
  opacity : ℚ
  rotate : Int
  deriving DecidableEq, Repr

/-- A page of a pdf-lib document: its original content (an abstract identity;
0 is a page with nothing on it), its size as returned by `page.getSize()`, and
the text draws applied to it. -/
structure PDFPage where
  content : Nat
  width : ℚ
  height : ℚ
  draws : List TextDraw
  deriving DecidableEq, Repr

/-- A pdf-lib document (`PDFLib.PDFDocument`): its pages in page order. -/
abbrev PDFDocument := List PDFPage

/-- A PDF.js document (`pdfjsLib.getDocument(...).promise`): only `numPages`
is read by the code. -/
structure PDFDocumentProxy where
  numPages : Nat
  deriving DecidableEq, Repr

/-- The browser `File` handed to `PDFLoader.loadFromFile`. -/
structure File where
  name : String
  size : Nat
  type : String
  deriving DecidableEq, Repr

/-- The global `AppState` object (src/app.js lines 12-21). -/
structure AppState where
  pdfDoc : Option PDFDocumentProxy
  pdfBytes : Option Bytes
  pdfLibDoc : Option PDFDocument
  fileName : String
  fileSize : Nat
  currentPage : Int
  totalPages : Int
  scale : ℚ
  deriving DecidableEq, Repr

/-- The initial value of `AppState`, which is also what `PDFLoader.reset`
writes back. -/
def AppState.empty : AppState :=
  { pdfDoc := none, pdfBytes := none, pdfLibDoc := none, fileName := "", fileSize := 0,
    currentPage := 1, totalPages := 0, scale := 1 }

/-- The second argument of `Utils.showToast`. -/
inductive ToastType where
  | success
  | warning
  | error
  deriving DecidableEq, Repr

/-- One toast notification. -/
structure Toast where
  message : String
  type : ToastType
  deriving DecidableEq, Repr

/-- A download triggered by the code: a single PDF (the payload is the saved
document) or the archive built by `splitAllPages` (folder name and the files
added to it, in the order of the `folder.file` calls). -/
inductive Download where
  | pdf (name : String) (doc : PDFDocument)
  | zip (name : String) (folder : String) (files : List (String × PDFDocument))
  deriving DecidableEq, Repr

/-- Everything the code reads or writes: `AppState` and the observable effects. -/
structure World where
  app : AppState
  toasts : List Toast
  downloads : List Download
  loading : Option String
  deriving DecidableEq, Repr

/-- The external calls that can throw. `none` or `false` means the call throws
(or its promise rejects). -/
structure Collaborators where
  /-- The call `file.arrayBuffer()`. -/
  arrayBuffer : File → Option Bytes
  /-- The call `pdfjsLib.getDocument(..).promise`. -/
  getDocument : Bytes → Option PDFDocumentProxy
  /-- The call `PDFLib.PDFDocument.load(bytes)`. -/
  load : Bytes → Option PDFDocument
  /-- Whether the serialisation in `doc.save()` succeeds, on the document as
  `save` has prepared it (see `addDefaultPage`). -/
  save : PDFDocument → Bool
  /-- Whether the body of `PDFRenderer.renderPage` runs without throwing. -/
  render : PDFDocumentProxy → Int → ℚ → Bool
  /-- Whether `page.drawText(text, options)` succeeds on a page. -/
  drawText : PDFPage → TextDraw → Bool
  /-- Whether `zip.generateAsync` and the archive download succeed. -/
  generateZip : List (String × PDFDocument) → Bool
  /-- Whether the body of `downloadPdf` (Blob, object URL, click) succeeds. -/
  download : String → Bool

/-! ## Utils -/

/-- The function `Utils.showLoading`. -/
def Utils.showLoading (message : String) (w : World) : World :=
  { w with loading := some message }

/-- The function `Utils.hideLoading`. -/
def Utils.hideLoading (w : World) : World :=
  { w with loading := none }

/-- The function `Utils.showToast`: appends a toast to the container. -/
def Utils.showToast (message : String) (type : ToastType) (w : World) : World :=
  { w with toasts := w.toasts ++ [⟨message, type⟩] }

/-! ## JavaScript built-ins used by the code -/

/-- White space and line terminators removed by `String.prototype.trim`. -/
def isWhiteSpace (c : Char) : Bool :=
  c.toNat ∈ [0x9, 0xA, 0xB, 0xC, 0xD, 0x20, 0xA0, 0x1680, 0x2028, 0x2029, 0x202F, 0x205F, 0x3000,
    0xFEFF] || (0x2000 ≤ c.toNat && c.toNat ≤ 0x200A)

/-- The method `String.prototype.trim`. -/
def jsTrim (s : String) : String :=
  String.mk ((s.data.dropWhile isWhiteSpace).reverse.dropWhile isWhiteSpace).reverse

/-- The method `String.prototype.slice(a, b)` for `0 ≤ a ≤ b`. -/
def jsSlice (s : String) (a b : Nat) : List Char :=
  (s.data.drop a).take (b - a)

/-- Value of a hexadecimal digit. -/
def hexDigit (c : Char) : Option Nat :=
  if 48 ≤ c.toNat ∧ c.toNat ≤ 57 then some (c.toNat - 48)
  else if 97 ≤ c.toNat ∧ c.toNat ≤ 102 then some (c.toNat - 87)
  else if 65 ≤ c.toNat ∧ c.toNat ≤ 70 then some (c.toNat - 55)
  else none

/-- Reads the longest run of hexadecimal digits at the head of the input:
the value accumulated so far and the number of digits read. -/
def hexDigits : List Char → Nat → Nat → Nat × Nat
  | [], acc, n => (acc, n)
  | c :: cs, acc, n =>
    match hexDigit c with
    | some d => hexDigits cs (16 * acc + d) (n + 1)
    | none => (acc, n)

/-- The optional sign read by `parseInt`: whether it is `-`, and the rest. -/
def stripSign : List Char → Bool × List Char
  | '-' :: t => (true, t)
  | '+' :: t => (false, t)
  | t => (false, t)

/-- The optional `0x` or `0X` that `parseInt` skips when the radix is 16. -/
def stripHexMarker : List Char → List Char
  | '0' :: 'x' :: t => t
  | '0' :: 'X' :: t => t
  | t => t

/-- The call `parseInt(s, 16)`: leading white space, an optional sign, an
optional `0x`, then the longest run of hexadecimal digits; `none` is `NaN`. -/
def parseIntHex (s : List Char) : Option Int :=
  let signed := stripSign (s.dropWhile isWhiteSpace)
  let digits := hexDigits (stripHexMarker signed.2) 0 0
  if digits.2 = 0 then none
  else some (if signed.1 then -(digits.1 : Int) else (digits.1 : Int))

/-- The expression `a || b` on numbers, where `none` is `NaN`: `a` when it is
truthy (neither `NaN` nor `0`), else `b`. -/
def jsOr (a : Option Int) (b : Int) : Int :=
  match a with
  | none => b
  | some n => if n = 0 then b else n

/-! ## pdf-lib helpers -/

/-- The call `newPdf.copyPages(src, indices)`: the pages of `src` at the given
0-based indices, in the order given; throws when an index has no page. The
copies carry the content of the source pages. -/
def copyPages (src : PDFDocument) (indices : List Nat) : Option (List PDFPage) :=
  indices.mapM (fun i => src[i]?)

/-- The call `rgb(r, g, b)` of pdf-lib: it throws unless every component is a
number in `[0, 1]`. -/
def rgb (r g b : Option ℚ) : Option (ℚ × ℚ × ℚ) :=
  match r, g, b with
  | some r, some g, some b =>
    if 0 ≤ r ∧ r ≤ 1 ∧ 0 ≤ g ∧ g ≤ 1 ∧ 0 ≤ b ∧ b ≤ 1 then some (r, g, b) else none
  | _, _, _ => none

/-- The page that `doc.save()` adds to a document without pages: pdf-lib's
default page, A4 and empty. -/
def blankPage : PDFPage :=
  { content := 0, width := 595.28, height := 841.89, draws := [] }

/-- The first step of `doc.save()` in pdf-lib: a document without pages gets
one blank page, added to the document itself, before it is serialised. -/
def addDefaultPage (doc : PDFDocument) : PDFDocument :=
  match doc with
  | [] => [blankPage]
  | page :: rest => page :: rest

/-- The call `pdfFont.widthOfTextAtSize(text, size)` (line 425). `pdfFont` is
a member of pdf-lib's `StandardFonts`, which is the name of the font, a
string; the code never makes it a font of the document (`embedFont`), so the
value has no such method and the call throws, whatever the arguments. -/
def widthOfTextAtSize (_pdfFont : StandardFonts) (_text : String) (_size : Int) : Option ℚ :=
  none

/-! ## PDFLoader (src/app.js lines 161-222) -/

/-- The method `PDFRenderer.renderPage`: returns at once without a render
handle; otherwise renders, and reports a failure of the rendering by an error
toast. It never writes to `AppState`. -/
def PDFRenderer.renderPage (L : Collaborators) (pageNumber : Int) (w : World) : World :=
  match w.app.pdfDoc with
  | none => w
  | some doc =>
    if L.render doc pageNumber w.app.scale then w
    else Utils.showToast "Error rendering page" .error w

/-- The `catch` block of `PDFLoader.loadFromFile`. -/
def PDFLoader.loadFromFile.onError (w : World) : World :=
  Utils.showToast "Failed to load PDF. Please try another file." .error w

/-- The method `PDFLoader.loadFromFile`. The assignments to `AppState` happen
in source order, so whatever was assigned before a throwing call stays
assigned when the `catch` block runs. -/
def PDFLoader.loadFromFile (L : Collaborators) (file : File) (w : World) : World :=
  let w := Utils.showLoading "Loading PDF..." w
  let w :=
    match L.arrayBuffer file with
    | none => PDFLoader.loadFromFile.onError w
    | some arrayBuffer =>
      let w := { w with app := { w.app with
        pdfBytes := some arrayBuffer, fileName := file.name, fileSize := file.size } }
      match L.getDocument arrayBuffer with
      | none => PDFLoader.loadFromFile.onError w
      | some pdfDoc =>
        let w := { w with app := { w.app with
          pdfDoc := some pdfDoc, totalPages := (pdfDoc.numPages : Int), currentPage := 1 } }
        match L.load arrayBuffer with
        | none => PDFLoader.loadFromFile.onError w
        | some pdfLibDoc =>
          let w := { w with app := { w.app with pdfLibDoc := some pdfLibDoc } }
          let w := PDFRenderer.renderPage L w.app.currentPage w
          Utils.showToast "PDF loaded successfully" .success w
  Utils.hideLoading w

/-- The method `PDFLoader.reset`. -/
def PDFLoader.reset (w : World) : World :=
  { w with app := AppState.empty }

/-! ## PDFRenderer (src/app.js lines 227-303) -/

/-- The call `this.renderPage(AppState.currentPage)` at the end of the four
navigation methods. When the method was registered as a bare click listener,
`this` is not `PDFRenderer` and the call throws after the state update;
`bound` says whether `this` is `PDFRenderer`. -/
def PDFRenderer.thisRenderPage (L : Collaborators) (bound : Bool) (w : World) : World :=
  if bound then PDFRenderer.renderPage L w.app.currentPage w else w

/-- The method `PDFRenderer.nextPage`. -/
def PDFRenderer.nextPage (L : Collaborators) (bound : Bool) (w : World) : World :=
  if w.app.currentPage < w.app.totalPages then
    let w := { w with app := { w.app with currentPage := w.app.currentPage + 1 } }
    PDFRenderer.thisRenderPage L bound w
  else w

/-- The method `PDFRenderer.prevPage`. -/
def PDFRenderer.prevPage (L : Collaborators) (bound : Bool) (w : World) : World :=
  if w.app.currentPage > 1 then
    let w := { w with app := { w.app with currentPage := w.app.currentPage - 1 } }
    PDFRenderer.thisRenderPage L bound w
  else w

/-- The method `PDFRenderer.zoomIn`. -/
def PDFRenderer.zoomIn (L : Collaborators) (bound : Bool) (w : World) : World :=
  if w.app.scale < 3.0 then
    let w := { w with app := { w.app with scale := min 3.0 (w.app.scale + 0.25) } }
    PDFRenderer.thisRenderPage L bound w
  else w

/-- The method `PDFRenderer.zoomOut`. -/
def PDFRenderer.zoomOut (L : Collaborators) (bound : Bool) (w : World) : World :=
  if w.app.scale > 0.5 then
    let w := { w with app := { w.app with scale := max 0.5 (w.app.scale - 0.25) } }
    PDFRenderer.thisRenderPage L bound w
  else w

/-- A page-navigation request. -/
inductive NavCmd where
  | next
  | prev
  deriving DecidableEq, Repr

/-- A zoom request. -/
inductive ZoomCmd where
  | zoomIn
  | zoomOut
  deriving DecidableEq, Repr

/-- Runs one navigation request; the flag is the `this` binding of the call. -/
def NavCmd.run (L : Collaborators) (c : NavCmd × Bool) (w : World) : World :=
  match c.1 with
  | .next => PDFRenderer.nextPage L c.2 w
  | .prev => PDFRenderer.prevPage L c.2 w

/-- Runs one zoom request; the flag is the `this` binding of the call. -/
def ZoomCmd.run (L : Collaborators) (c : ZoomCmd × Bool) (w : World) : World :=
  match c.1 with
  | .zoomIn => PDFRenderer.zoomIn L c.2 w
  | .zoomOut => PDFRenderer.zoomOut L c.2 w

/-- Runs a finite sequence of navigation requests, first to last. -/
def runNav (L : Collaborators) (cs : List (NavCmd × Bool)) (w : World) : World :=
  cs.foldl (fun w c => NavCmd.run L c w) w

/-- Runs a finite sequence of zoom requests, first to last. -/
def runZoom (L : Collaborators) (cs : List (ZoomCmd × Bool)) (w : World) : World :=
  cs.foldl (fun w c => ZoomCmd.run L c w) w

/-! ## PDFProcessor (src/app.js lines 308-488) -/

/-- The method `PDFProcessor.downloadPdf`, with its own `try / catch`. -/
def PDFProcessor.downloadPdf (L : Collaborators) (doc : PDFDocument) (name : String)
    (w : World) : World :=
  if L.download name then { w with downloads := w.downloads ++ [Download.pdf name doc] }
  else Utils.showToast "Failed to download PDF" .error w

/-- The loop `for (let i = start; i < end; i++) pageIndices.push(i)`; the
first argument bounds the number of iterations. -/
def PDFProcessor.extractPages.loop : Nat → Nat → Int → List Nat
  | 0, _, _ => []
  | fuel + 1, i, end_ =>
    if (i : Int) < end_ then i :: PDFProcessor.extractPages.loop fuel (i + 1) end_ else []

/-- The array `pageIndices` of `extractPages` (lines 319-328). `start` is never
negative, so it is carried as a natural number. -/
def PDFProcessor.extractPages.pageIndices (totalPages startPage endPage : Int) : List Nat :=
  let start := max 0 (startPage - 1)
  let end_ := min totalPages endPage
  PDFProcessor.extractPages.loop (end_ - start).toNat start.toNat end_

/-- The document `newPdf` of `extractPages` after `copyPages` and the
`forEach(page => newPdf.addPage(page))` (lines 323-331); `none` when
`copyPages` throws. -/
def PDFProcessor.extractPages.newPdf (app : AppState) (src : PDFDocument)
    (startPage endPage : Int) : Option PDFDocument :=
  match copyPages src (PDFProcessor.extractPages.pageIndices app.totalPages startPage endPage) with
  | none => none
  | some copiedPages => some (copiedPages.foldl (fun newPdf page => newPdf ++ [page]) [])

/-- The method `PDFProcessor.extractPages`. -/
def PDFProcessor.extractPages (L : Collaborators) (startPage endPage : Int) (w : World) : World :=
  match w.app.pdfLibDoc with
  | none => w
  | some src =>
    let w := Utils.showLoading "Extracting pages..." w
    let w :=
      match PDFProcessor.extractPages.newPdf w.app src startPage endPage with
      | none => Utils.showToast "Failed to extract pages" .error w
      | some newPdf =>
        let newPdf := addDefaultPage newPdf
        if L.save newPdf then
          let w := PDFProcessor.downloadPdf L newPdf
            ("extracted_pages_" ++ toString startPage ++ "_to_" ++ toString endPage ++ ".pdf") w
          Utils.showToast "Pages extracted successfully" .success w
        else Utils.showToast "Failed to extract pages" .error w
    Utils.hideLoading w

/-- The loop of `splitAllPages` (lines 359-366) from index `i` on, with the
files added to the folder so far; `none` when a call throws. The first
argument bounds the number of iterations. -/
def PDFProcessor.splitAllPages.loop (L : Collaborators) (src : PDFDocument) :
    Nat → Nat → List (String × PDFDocument) → Option (List (String × PDFDocument))
  | 0, _, files => some files
  | fuel + 1, i, files =>
    if i < src.length then
      match copyPages src [i] with
      | some (copiedPage :: _) =>
        let newPdf : PDFDocument := [] ++ [copiedPage]
        if L.save newPdf then
          PDFProcessor.splitAllPages.loop L src fuel (i + 1)
            (files ++ [("page_" ++ toString (i + 1) ++ ".pdf", newPdf)])
        else none
      | _ => none
    else some files

/-- The method `PDFProcessor.splitAllPages`. -/
def PDFProcessor.splitAllPages (L : Collaborators) (w : World) : World :=
  match w.app.pdfLibDoc with
  | none => w
  | some src =>
    let w := Utils.showLoading "Splitting pages..." w
    let w :=
      match PDFProcessor.splitAllPages.loop L src src.length 0 [] with
      | none => Utils.showToast "Failed to split pages" .error w
      | some files =>
        if L.generateZip files then
          let w := { w with
            downloads := w.downloads ++ [Download.zip "split_pages.zip" "extracted_pages" files] }
          Utils.showToast "All pages split successfully" .success w
        else Utils.showToast "Failed to split pages" .error w
    Utils.hideLoading w

/-- The `switch (font)` of `addWatermark` (lines 406-419). -/
def PDFProcessor.addWatermark.pdfFont (font : String) : StandardFonts :=
  if font = "Helvetica" then StandardFonts.Helvetica
  else if font = "Times-Roman" then StandardFonts.TimesRoman
  else if font = "Courier" then StandardFonts.Courier
  else StandardFonts.Helvetica

/-- One colour channel: `parseInt(color.slice(a, b), 16) / 255`. -/
def PDFProcessor.addWatermark.channel (color : String) (a b : Nat) : Option ℚ :=
  (parseIntHex (jsSlice color a b)).map (fun n => (n : ℚ) / 255)

/-- The options object handed to `page.drawText` for one page (lines 422-436);
`none` when `widthOfTextAtSize` or `rgb` throws. The width is computed first
(line 425), so nothing after it is reached. -/
def PDFProcessor.addWatermark.options (text font : String)
    (size opacity rotation : Int) (color : String) (page : PDFPage) : Option TextDraw :=
  let r := PDFProcessor.addWatermark.channel color 1 3
  let g := PDFProcessor.addWatermark.channel color 3 5
  let b := PDFProcessor.addWatermark.channel color 5 7
  let pdfFont := PDFProcessor.addWatermark.pdfFont font
  match widthOfTextAtSize pdfFont text size with
  | none => none
  | some textWidth =>
    match rgb r g b with
    | none => none
    | some c =>
      some { text := text, x := page.width / 2 - textWidth / 2, y := page.height / 2,
             size := size, font := pdfFont, color := c, opacity := (opacity : ℚ) / 100,
             rotate := rotation }

/-- The loop `for (const page of pages)` of `addWatermark` (lines 421-437).
Pages are drawn on in place: the result is the pages as they are when the loop
ends, and whether it ended normally (`false`: a call threw; the pages drawn on
before that keep their text). -/
def PDFProcessor.addWatermark.loop (L : Collaborators) (text font : String)
    (size opacity rotation : Int) (color : String) : List PDFPage → List PDFPage × Bool
  | [] => ([], true)
  | page :: rest =>
    match PDFProcessor.addWatermark.options text font size opacity rotation color page with
    | none => (page :: rest, false)
    | some d =>
      if L.drawText page d then
        let r := PDFProcessor.addWatermark.loop L text font size opacity rotation color rest
        ({ page with draws := page.draws ++ [d] } :: r.1, r.2)
      else (page :: rest, false)

/-- The method `PDFProcessor.addWatermark`. `save()` is called on the edit
handle itself, so the page it adds to a document without pages lands in
`AppState`. -/
def PDFProcessor.addWatermark (L : Collaborators) (text font : String)
    (size opacity rotation : Int) (color : String) (w : World) : World :=
  match w.app.pdfLibDoc with
  | none => Utils.showToast "Please enter watermark text" .warning w
  | some pdfLibDoc =>
    if jsTrim text = "" then Utils.showToast "Please enter watermark text" .warning w
    else
      let w := Utils.showLoading "Adding watermark..." w
      let r := PDFProcessor.addWatermark.loop L text font size opacity rotation color pdfLibDoc
      let w := { w with app := { w.app with pdfLibDoc := some r.1 } }
      let w :=
        if r.2 then
          let saved := addDefaultPage r.1
          let w := { w with app := { w.app with pdfLibDoc := some saved } }
          if L.save saved then
            let w := PDFProcessor.downloadPdf L saved ("watermarked_" ++ w.app.fileName) w
            Utils.showToast "Watermark added successfully" .success w
          else Utils.showToast "Failed to add watermark" .error w
        else Utils.showToast "Failed to add watermark" .error w
      Utils.hideLoading w

/-- The method `PDFProcessor.downloadCurrentPdf`. `save()` is called on the
edit handle itself, as in `addWatermark`. -/
def PDFProcessor.downloadCurrentPdf (L : Collaborators) (w : World) : World :=
  match w.app.pdfLibDoc with
  | none => w
  | some pdfLibDoc =>
    let w := Utils.showLoading "Preparing download..." w
    let saved := addDefaultPage pdfLibDoc
    let w := { w with app := { w.app with pdfLibDoc := some saved } }
    let w :=
      if L.save saved then
        let w := PDFProcessor.downloadPdf L saved w.app.fileName w
        Utils.showToast "PDF downloaded successfully" .success w
      else Utils.showToast "Failed to download PDF" .error w
    Utils.hideLoading w

/-! ## Event listeners (src/app.js lines 508-621) -/

/-- The checks of the extract-range click listener (lines 564-575) on the two
`parseInt` results (`none` is `NaN`): either the error toast of the rejection,
or the arguments with which `PDFProcessor.extractPages` is called. -/
def extractPagesClick.check (startValue endValue : Option Int) (app : AppState) :
    Except Toast (Int × Int) :=
  let start := jsOr startValue 1
  let end_ := jsOr endValue app.totalPages
  if start > end_ then .error ⟨"Start page must be less than end page", .error⟩
  else if start < 1 ∨ end_ > app.totalPages then
    .error ⟨"Page range must be between 1 and " ++ toString app.totalPages, .error⟩
  else .ok (start, end_)

/-- The extract-range click listener (lines 563-578). -/
def extractPagesClick (L : Collaborators) (startValue endValue : Option Int) (w : World) : World :=
  match extractPagesClick.check startValue endValue w.app with
  | .error t => Utils.showToast t.message t.type w
  | .ok (start, end_) => PDFProcessor.extractPages L start end_ w

/-- The file-input change listener (lines 515-522); `none` is no file. -/
def fileInputChange (L : Collaborators) (file : Option File) (w : World) : World :=
  match file with
  | none => w
  | some f =>
    if f.type = "application/pdf" then PDFLoader.loadFromFile L f w
    else Utils.showToast "Please select a PDF file" .error w

/-! ## Asynchronous execution

The `async` methods above are split here at their `await`s. JavaScript runs
the code between two `await`s without interruption; at an `await` the
operation is suspended, and any listener may run before it is resumed. An
awaited library call computes its result from its arguments when it is called;
`save()` adds its default page then too. The `await`s inside
`PDFRenderer.renderPage` are not split. -/

/-- An operation suspended at an `await`: the local variables still needed and
what the awaited promise settles to (`none` or `false`: it rejects). -/
inductive Suspended where
  /-- In `loadFromFile`, at `await file.arrayBuffer()`. -/
  | loadArrayBuffer (file : File) (result : Option Bytes)
  /-- In `loadFromFile`, at `await pdfjsLib.getDocument(..).promise`. -/
  | loadGetDocument (result : Option PDFDocumentProxy)
  /-- In `loadFromFile`, at `await PDFLib.PDFDocument.load(AppState.pdfBytes)`. -/
  | loadLoad (result : Option PDFDocument)
  /-- In `loadFromFile`, at `await PDFRenderer.renderPage(AppState.currentPage)`. -/
  | loadRenderPage
  /-- In `extractPages`, at `await PDFLib.PDFDocument.create()`. -/
  | extractCreate (startPage endPage start end_ : Int)
  /-- In `extractPages`, at `await newPdf.copyPages(AppState.pdfLibDoc, pageIndices)`. -/
  | extractCopyPages (startPage endPage : Int) (result : Option (List PDFPage))
  /-- In `extractPages`, at `await newPdf.save()`. -/
  | extractSave (startPage endPage : Int) (newPdf : PDFDocument) (result : Bool)
  /-- In the loop of `splitAllPages`, at `await PDFLib.PDFDocument.create()`. -/
  | splitCreate (pagesLength i : Nat) (files : List (String × PDFDocument))
  /-- In the loop of `splitAllPages`, at `await newPdf.copyPages(AppState.pdfLibDoc, [i])`. -/
  | splitCopyPages (pagesLength i : Nat) (files : List (String × PDFDocument))
      (result : Option (List PDFPage))
  /-- In the loop of `splitAllPages`, at `await newPdf.save()`. -/
  | splitSave (pagesLength i : Nat) (files : List (String × PDFDocument))
      (newPdf : PDFDocument) (result : Bool)
  /-- In `splitAllPages`, at `await zip.generateAsync(..)`. -/
  | splitGenerate (files : List (String × PDFDocument)) (result : Bool)
  /-- In `addWatermark`, at `await AppState.pdfLibDoc.save()`. -/
  | watermarkSave (doc : PDFDocument) (result : Bool)
  /-- In `downloadCurrentPdf`, at `await AppState.pdfLibDoc.save()`. -/
  | downloadSave (doc : PDFDocument) (result : Bool)
  deriving DecidableEq, Repr

/-- The outcome of running an operation up to its next `await`: the state
reached, and the suspended operation unless it has ended. -/
abbrev Segment := World × Option Suspended

/-- The method `loadFromFile` from its call to its first `await`. -/
def PDFLoader.loadFromFile.start (L : Collaborators) (file : File) (w : World) : Segment :=
  (Utils.showLoading "Loading PDF..." w, some (.loadArrayBuffer file (L.arrayBuffer file)))

/-- The method `extractPages` from its call to its first `await`. -/
def PDFProcessor.extractPages.start (startPage endPage : Int) (w : World) : Segment :=
  match w.app.pdfLibDoc with
  | none => (w, none)
  | some _ =>
    let w := Utils.showLoading "Extracting pages..." w
    (w, some (.extractCreate startPage endPage (max 0 (startPage - 1))
      (min w.app.totalPages endPage)))

/-- The loop test `i < pages.length` of `splitAllPages` and what is awaited
next: `create()` of the next iteration, or `generateAsync` after the loop. -/
def PDFProcessor.splitAllPages.next (L : Collaborators) (pagesLength i : Nat)
    (files : List (String × PDFDocument)) : Suspended :=
  if i < pagesLength then .splitCreate pagesLength i files
  else .splitGenerate files (L.generateZip files)

/-- The method `splitAllPages` from its call to its first `await`. -/
def PDFProcessor.splitAllPages.start (L : Collaborators) (w : World) : Segment :=
  match w.app.pdfLibDoc with
  | none => (w, none)
  | some pdfLibDoc =>
    let w := Utils.showLoading "Splitting pages..." w
    (w, some (PDFProcessor.splitAllPages.next L pdfLibDoc.length 0 []))

/-- The method `addWatermark` from its call to its first `await`: the whole
loop over the pages runs before it. -/
def PDFProcessor.addWatermark.start (L : Collaborators) (text font : String)
    (size opacity rotation : Int) (color : String) (w : World) : Segment :=
  match w.app.pdfLibDoc with
  | none => (Utils.showToast "Please enter watermark text" .warning w, none)
  | some pdfLibDoc =>
    if jsTrim text = "" then (Utils.showToast "Please enter watermark text" .warning w, none)
    else
      let w := Utils.showLoading "Adding watermark..." w
      let r := PDFProcessor.addWatermark.loop L text font size opacity rotation color pdfLibDoc
      let w := { w with app := { w.app with pdfLibDoc := some r.1 } }
      if r.2 then
        let saved := addDefaultPage r.1
        let w := { w with app := { w.app with pdfLibDoc := some saved } }
        (w, some (.watermarkSave saved (L.save saved)))
      else (Utils.hideLoading (Utils.showToast "Failed to add watermark" .error w), none)

/-- The method `downloadCurrentPdf` from its call to its first `await`. -/
def PDFProcessor.downloadCurrentPdf.start (L : Collaborators) (w : World) : Segment :=
  match w.app.pdfLibDoc with
  | none => (w, none)
  | some pdfLibDoc =>
    let w := Utils.showLoading "Preparing download..." w
    let saved := addDefaultPage pdfLibDoc
    let w := { w with app := { w.app with pdfLibDoc := some saved } }
    (w, some (.downloadSave saved (L.save saved)))

/-- The `catch` and `finally` blocks of an operation: one error toast, then
`Utils.hideLoading`. -/
def Suspended.fail (message : String) (w : World) : Segment :=
  (Utils.hideLoading (Utils.showToast message .error w), none)

/-- Resumes a suspended operation when its promise has settled, and runs it
to its next `await` or to its end. -/
def Suspended.resume (L : Collaborators) : Suspended → World → Segment
  | .loadArrayBuffer file result, w =>
    match result with
    | none => (Utils.hideLoading (PDFLoader.loadFromFile.onError w), none)
    | some arrayBuffer =>
      let w := { w with app := { w.app with
        pdfBytes := some arrayBuffer, fileName := file.name, fileSize := file.size } }
      (w, some (.loadGetDocument (w.app.pdfBytes.bind L.getDocument)))
  | .loadGetDocument result, w =>
    match result with
    | none => (Utils.hideLoading (PDFLoader.loadFromFile.onError w), none)
    | some pdfDoc =>
      let w := { w with app := { w.app with
        pdfDoc := some pdfDoc, totalPages := (pdfDoc.numPages : Int), currentPage := 1 } }
      (w, some (.loadLoad (w.app.pdfBytes.bind L.load)))
  | .loadLoad result, w =>
    match result with
    | none => (Utils.hideLoading (PDFLoader.loadFromFile.onError w), none)
    | some pdfLibDoc =>
      let w := { w with app := { w.app with pdfLibDoc := some pdfLibDoc } }
      (PDFRenderer.renderPage L w.app.currentPage w, some .loadRenderPage)
  | .loadRenderPage, w =>
    (Utils.hideLoading (Utils.showToast "PDF loaded successfully" .success w), none)
  | .extractCreate startPage endPage start end_, w =>
    let pageIndices := PDFProcessor.extractPages.loop (end_ - start).toNat start.toNat end_
    (w, some (.extractCopyPages startPage endPage
      (w.app.pdfLibDoc.bind (fun src => copyPages src pageIndices))))
  | .extractCopyPages startPage endPage result, w =>
    match result with
    | none => Suspended.fail "Failed to extract pages" w
    | some copiedPages =>
      let newPdf : PDFDocument :=
        addDefaultPage (copiedPages.foldl (fun newPdf page => newPdf ++ [page]) [])
      (w, some (.extractSave startPage endPage newPdf (L.save newPdf)))
  | .extractSave startPage endPage newPdf result, w =>
    if result then
      let w := PDFProcessor.downloadPdf L newPdf
        ("extracted_pages_" ++ toString startPage ++ "_to_" ++ toString endPage ++ ".pdf") w
      (Utils.hideLoading (Utils.showToast "Pages extracted successfully" .success w), none)
    else Suspended.fail "Failed to extract pages" w
  | .splitCreate pagesLength i files, w =>
    (w, some (.splitCopyPages pagesLength i files
      (w.app.pdfLibDoc.bind (fun src => copyPages src [i]))))
  | .splitCopyPages pagesLength i files result, w =>
    match result with
    | some (copiedPage :: _) =>
      let newPdf : PDFDocument := [] ++ [copiedPage]
      (w, some (.splitSave pagesLength i files newPdf (L.save newPdf)))
    | _ => Suspended.fail "Failed to split pages" w
  | .splitSave pagesLength i files newPdf result, w =>
    if result then
      (w, some (PDFProcessor.splitAllPages.next L pagesLength (i + 1)
        (files ++ [("page_" ++ toString (i + 1) ++ ".pdf", newPdf)])))
    else Suspended.fail "Failed to split pages" w
  | .splitGenerate files result, w =>
    if result then
      let w := { w with
        downloads := w.downloads ++ [Download.zip "split_pages.zip" "extracted_pages" files] }
      (Utils.hideLoading (Utils.showToast "All pages split successfully" .success w), none)
    else Suspended.fail "Failed to split pages" w
  | .watermarkSave doc result, w =>
    if result then
      let w := PDFProcessor.downloadPdf L doc ("watermarked_" ++ w.app.fileName) w
      (Utils.hideLoading (Utils.showToast "Watermark added successfully" .success w), none)
    else Suspended.fail "Failed to add watermark" w
  | .downloadSave doc result, w =>
    if result then
      let w := PDFProcessor.downloadPdf L doc w.app.fileName w
      (Utils.hideLoading (Utils.showToast "PDF downloaded successfully" .success w), none)
    else Suspended.fail "Failed to download PDF" w

/-- The listeners of `setupEventListeners` that start one of the five
operations, with the values read from the form (`parseInt` results where the
source parses). -/
inductive Listener where
  | fileInputChange (file : Option File)
  | extractPagesClick (startValue endValue : Option Int)
  | splitAllClick
  | applyWatermarkClick (text font : String) (size opacity rotation : Int) (color : String)
  | downloadPdfClick
  deriving DecidableEq, Repr

/-- Runs a listener from its invocation to the first `await` it reaches. -/
def Listener.run (L : Collaborators) : Listener → World → Segment
  | .fileInputChange none, w => (w, none)
  | .fileInputChange (some file), w =>
    if file.type = "application/pdf" then PDFLoader.loadFromFile.start L file w
    else (Utils.showToast "Please select a PDF file" .error w, none)
  | .extractPagesClick startValue endValue, w =>
    match extractPagesClick.check startValue endValue w.app with
    | .error t => (Utils.showToast t.message t.type w, none)
    | .ok (start, end_) => PDFProcessor.extractPages.start start end_ w
  | .splitAllClick, w => PDFProcessor.splitAllPages.start L w
  | .applyWatermarkClick text font size opacity rotation color, w =>
    PDFProcessor.addWatermark.start L text font size opacity rotation color w
  | .downloadPdfClick, w => PDFProcessor.downloadCurrentPdf.start L w

/-- The page at one moment: the state the code reads and writes, and the
operations in flight, each suspended at an `await`, oldest first. -/
structure Browser where
  world : World
  inFlight : List Suspended
  deriving DecidableEq, Repr

/-- A listener is invoked: it runs to its first `await`; an operation that is
then suspended joins the operations in flight. -/
def Browser.listen (L : Collaborators) (l : Listener) (b : Browser) : Browser :=
  let r := Listener.run L l b.world
  { world := r.1, inFlight := b.inFlight ++ r.2.toList }

/-- The promise awaited by the `i`-th operation in flight settles: that
operation runs to its next `await`, or ends and leaves. -/
def Browser.settle (L : Collaborators) (i : Nat) (b : Browser) : Browser :=
  match b.inFlight[i]? with
  | none => b
  | some t =>
    let r := Suspended.resume L t b.world
    { world := r.1,
      inFlight :=
        match r.2 with
        | some t' => b.inFlight.set i t'
        | none => b.inFlight.eraseIdx i }

/-- What can happen next in the page. -/
inductive Event where
  | listen (l : Listener)
  | settle (i : Nat)
  deriving DecidableEq, Repr

/-- One event. -/
def Browser.step (L : Collaborators) (b : Browser) : Event → Browser
  | .listen l => Browser.listen L l b
  | .settle i => Browser.settle L i b

/-- A finite sequence of events, first to last. -/
def Browser.run (L : Collaborators) (events : List Event) (b : Browser) : Browser :=
  events.foldl (Browser.step L) b

/-- Lets the oldest operation in flight proceed `n` times with no listener in
between. -/
def Browser.drain (L : Collaborators) : Nat → Browser → Browser
  | 0, b => b
  | n + 1, b => Browser.drain L n (Browser.settle L 0 b)

/-! ## Concrete inputs used to exercise the model -/

/-- A US-Letter page with the given content and no text drawn on it. -/
def Example.page (n : Nat) : PDFPage :=
  { content := n, width := 612, height := 792, draws := [] }

/-- A five-page edit handle. -/
def Example.doc5 : PDFDocument :=
  [Example.page 1, Example.page 2, Example.page 3, Example.page 4, Example.page 5]

/-- A three-page edit handle. -/
def Example.doc3 : PDFDocument :=
  [Example.page 1, Example.page 2, Example.page 3]

/-- Libraries in which every call that depends on the file or the browser
succeeds; both decoders see five pages. -/
def Example.lib : Collaborators :=
  { arrayBuffer := fun _ => some [37, 80, 68, 70]
    getDocument := fun _ => some ⟨5⟩
    load := fun _ => some Example.doc5
    save := fun _ => true
    render := fun _ _ _ => true
    drawText := fun _ _ => true
    generateZip := fun _ => true
    download := fun _ => true }

/-- The state after loading a five-page file `a.pdf`. -/
def Example.loaded5 : World :=
  { app := { pdfDoc := some ⟨5⟩, pdfBytes := some [37, 80, 68, 70],
             pdfLibDoc := some Example.doc5, fileName := "a.pdf", fileSize := 4,
             currentPage := 1, totalPages := 5, scale := 1 },
    toasts := [], downloads := [], loading := none }

/-- The state after loading a three-page file `b.pdf`. -/
def Example.loaded3 : World :=
  { app := { pdfDoc := some ⟨3⟩, pdfBytes := some [37, 80, 68, 70],
             pdfLibDoc := some Example.doc3, fileName := "b.pdf", fileSize := 4,
             currentPage := 1, totalPages := 3, scale := 1 },
    toasts := [], downloads := [], loading := none }

/-- The state at application start: nothing loaded, nothing shown. -/
def Example.start : World :=
  { app := AppState.empty, toasts := [], downloads := [], loading := none }

/-- A file the browser reports as `application/pdf`. -/
def Example.file : File :=
  { name := "a.pdf", size := 4, type := "application/pdf" }

/-- Libraries seeing bytes that are not a PDF: both decoders reject them. -/
def Example.libNotPdf : Collaborators :=
  { Example.lib with
    arrayBuffer := fun _ => some [104, 105, 33, 10]
    getDocument := fun _ => none
    load := fun _ => none }

/-- Libraries whose render decoder accepts the bytes (five pages) while the
edit decoder rejects them. -/
def Example.libEditFails : Collaborators :=
  { Example.lib with load := fun _ => none }

/-- Libraries whose decoders disagree on the page count: two pages for
rendering, three for editing. -/
def Example.libMismatch : Collaborators :=
  { Example.lib with
    getDocument := fun _ => some ⟨2⟩
    load := fun _ => some Example.doc3 }

/-- The page with the five-page document loaded and nothing in flight. -/
def Example.browser5 : Browser :=
  { world := Example.loaded5, inFlight := [] }

/-- Two clicks in a row: extract pages 2 to 4, then download the current
document while the extraction is suspended at its first `await`. -/
def Example.twoClicks : List Event :=
  [Event.listen (Listener.extractPagesClick (some 2) (some 4)),
   Event.listen Listener.downloadPdfClick]

/-- The two clicks, then the promise awaited by the download settles. -/
def Example.twoClicksThenDownload : List Event :=
  Example.twoClicks ++ [Event.settle 1]

/-- Libraries in which serialising a document throws. -/
def Example.libSaveFails : Collaborators :=
  { Example.lib with save := fun _ => false }

/-- The state with a document without pages loaded. -/
def Example.loaded0 : World :=
  { app := { pdfDoc := some ⟨0⟩, pdfBytes := some [37, 80, 68, 70], pdfLibDoc := some [],
             fileName := "e.pdf", fileSize := 4, currentPage := 1, totalPages := 0, scale := 1 },
    toasts := [], downloads := [], loading := none }

/-! # Verified properties -/

/-! ## Range extraction -/

/-- With enough iterations allowed, the index loop of `extractPages` yields the
ascending run of indices from `i` up to, excluding, `e`. -/
theorem extractLoop_eq_range' (fuel : Nat) : ∀ (i : Nat) (e : Int), (e - i).toNat ≤ fuel →
    PDFProcessor.extractPages.loop fuel i e = List.range' i (e - i).toNat := by
  induction fuel with
  | zero =>
    intro i e h
    have h0 : (e - i).toNat = 0 := by omega
    simp [PDFProcessor.extractPages.loop, h0]
  | succ n ih =>
    intro i e h
    unfold PDFProcessor.extractPages.loop
    by_cases hlt : (i : Int) < e
    · have hn : (e - i).toNat = (e - ((i + 1 : Nat) : Int)).toNat + 1 := by omega
      rw [if_pos hlt, ih (i + 1) e (by omega), hn, List.range'_succ]
    · have h0 : (e - i).toNat = 0 := by omega
      simp [hlt, h0]

/-- Copying a run of indices that lies inside the source yields that slice. -/
theorem copyPages_range' (src : PDFDocument) : ∀ (n lo : Nat), lo + n ≤ src.length →
    copyPages src (List.range' lo n) = some ((src.drop lo).take n) := by
  intro n
  induction n with
  | zero => intro lo _; simp only [copyPages, List.range'_zero, List.mapM_nil, List.take_zero]; rfl
  | succ n ih =>
    intro lo h
    have hlt : lo < src.length := by omega
    have ih' := ih (lo + 1) (by omega)
    unfold copyPages at ih' ⊢
    rw [List.range'_succ, List.mapM_cons, ih', List.getElem?_eq_getElem hlt,
      List.drop_eq_getElem_cons hlt]
    rfl

/-- Adding pages one by one appends them in order. -/
theorem foldl_addPage (l : List PDFPage) : ∀ init : List PDFPage,
    l.foldl (fun newPdf page => newPdf ++ [page]) init = init ++ l := by
  induction l with
  | nil => intro init; simp
  | cons p ps ih => intro init; simp [ih]

/-- On a document that has a page, `save()` adds none. -/
theorem addDefaultPage_of_ne_nil (doc : PDFDocument) (h : doc ≠ []) :
    addDefaultPage doc = doc := by
  cases doc with
  | nil => exact absurd rfl h
  | cons p ps => rfl

/-- The assembled document of `extractPages` is the slice of the source between
the two clamped bounds. -/
theorem extractPages_newPdf_eq (app : AppState) (doc : PDFDocument) (startPage endPage : Int)
    (hcount : app.totalPages = (doc.length : Int)) :
    PDFProcessor.extractPages.newPdf app doc startPage endPage =
      some ((doc.drop (max 0 (startPage - 1)).toNat).take
        (min (doc.length : Int) endPage - max 0 (startPage - 1)).toNat) := by
  have hlo : ((max 0 (startPage - 1)).toNat : Int) = max 0 (startPage - 1) :=
    Int.toNat_of_nonneg (le_max_left _ _)
  have hhi : min (doc.length : Int) endPage ≤ doc.length := min_le_left _ _
  unfold PDFProcessor.extractPages.newPdf PDFProcessor.extractPages.pageIndices
  simp only [hcount]
  rw [extractLoop_eq_range' _ _ _ (by rw [hlo]), hlo]
  by_cases hn : (min (doc.length : Int) endPage - max 0 (startPage - 1)).toNat = 0
  · simp only [hn, List.range'_zero, copyPages, List.mapM_nil, List.take_zero]
    rfl
  · rw [copyPages_range' doc _ _ (by omega)]
    simp only [foldl_addPage, List.nil_append]

/-- C1. For a loaded document whose `totalPages` is its page count, and any integers
`startPage`, `endPage`, the document assembled by `PDFProcessor.extractPages` exists and
holds exactly the source pages with 0-based index `i`,
`max 0 (startPage - 1) ≤ i < min pageCount endPage`, each once and in ascending order:
position `k` of the new document is source page `max 0 (startPage - 1) + k`, and there are
`max 0 (min pageCount endPage - max 0 (startPage - 1))` positions. When saving and the
download succeed, that document is what is delivered; only a new document left without
pages is delivered with the one blank page that `save()` adds to it. In particular for
`1 ≤ startPage ≤ endPage ≤ pageCount` it has `endPage - startPage + 1` pages, position `k`
holding source page `startPage - 1 + k`. -/
theorem extractPages_copies_range (L : Collaborators) (w : World) (doc : PDFDocument)
    (startPage endPage : Int) (hdoc : w.app.pdfLibDoc = some doc)
    (hcount : w.app.totalPages = (doc.length : Int)) :
    ∃ newPdf : PDFDocument,
      PDFProcessor.extractPages.newPdf w.app doc startPage endPage = some newPdf ∧
      (newPdf.length : Int) = max 0 (min (doc.length : Int) endPage - max 0 (startPage - 1)) ∧
      (∀ k : Nat, k < newPdf.length →
        max 0 (startPage - 1) ≤ (((max 0 (startPage - 1)).toNat + k : Nat) : Int) ∧
        (((max 0 (startPage - 1)).toNat + k : Nat) : Int) < min (doc.length : Int) endPage ∧
        ∃ p, doc[(max 0 (startPage - 1)).toNat + k]? = some p ∧ newPdf[k]? = some p) ∧
      (L.save (addDefaultPage newPdf) = true →
        L.download ("extracted_pages_" ++ toString startPage ++ "_to_" ++ toString endPage
          ++ ".pdf") = true →
        (PDFProcessor.extractPages L startPage endPage w).downloads =
          w.downloads ++ [Download.pdf ("extracted_pages_" ++ toString startPage ++ "_to_"
            ++ toString endPage ++ ".pdf") (addDefaultPage newPdf)]) ∧
      (newPdf ≠ [] → addDefaultPage newPdf = newPdf) ∧
      (1 ≤ startPage → startPage ≤ endPage → endPage ≤ (doc.length : Int) →
        (newPdf.length : Int) = endPage - startPage + 1 ∧
        ∀ k : Nat, k < newPdf.length →
          ∃ p, doc[(startPage - 1).toNat + k]? = some p ∧ newPdf[k]? = some p) := by
  have heq := extractPages_newPdf_eq w.app doc startPage endPage hcount
  have hlen : (((doc.drop (max 0 (startPage - 1)).toNat).take
      (min (doc.length : Int) endPage - max 0 (startPage - 1)).toNat).length : Int) =
      max 0 (min (doc.length : Int) endPage - max 0 (startPage - 1)) := by
    rw [List.length_take, List.length_drop]
    omega
  have hidx : ∀ k : Nat, k < ((doc.drop (max 0 (startPage - 1)).toNat).take
      (min (doc.length : Int) endPage - max 0 (startPage - 1)).toNat).length →
      max 0 (startPage - 1) ≤ (((max 0 (startPage - 1)).toNat + k : Nat) : Int) ∧
      (((max 0 (startPage - 1)).toNat + k : Nat) : Int) < min (doc.length : Int) endPage ∧
      ∃ p, doc[(max 0 (startPage - 1)).toNat + k]? = some p ∧
        ((doc.drop (max 0 (startPage - 1)).toNat).take
          (min (doc.length : Int) endPage - max 0 (startPage - 1)).toNat)[k]? = some p := by
    intro k hk
    have hk' := hk
    rw [List.length_take, List.length_drop] at hk'
    have hb : (max 0 (startPage - 1)).toNat + k < doc.length := by omega
    refine ⟨by omega, by omega, doc[(max 0 (startPage - 1)).toNat + k], ?_, ?_⟩
    · exact List.getElem?_eq_getElem hb
    · rw [List.getElem?_take_of_lt (by omega), List.getElem?_drop, List.getElem?_eq_getElem hb]
  refine ⟨_, heq, hlen, hidx, ?_, addDefaultPage_of_ne_nil _, ?_⟩
  · intro hsave hdl
    simp only [PDFProcessor.extractPages, hdoc, Utils.showLoading, heq, hsave, hdl,
      PDFProcessor.downloadPdf, Utils.showToast, Utils.hideLoading, if_true]
  · intro h1 h2 h3
    have hs : (max 0 (startPage - 1)).toNat = (startPage - 1).toNat := by omega
    refine ⟨by rw [hlen]; omega, ?_⟩
    intro k hk
    obtain ⟨_, _, p, hp, hq⟩ := hidx k hk
    exact ⟨p, by rw [← hs]; exact hp, hq⟩

/-- C1 at a five-page document with `(2, 4)`: pages 2, 3, 4 are delivered. -/
theorem extractPages_copies_range_witness :
    Example.loaded5.app.pdfLibDoc = some Example.doc5 ∧
    Example.loaded5.app.totalPages = (Example.doc5.length : Int) ∧
    (PDFProcessor.extractPages Example.lib 2 4 Example.loaded5).downloads =
      [Download.pdf "extracted_pages_2_to_4.pdf"
        [Example.page 2, Example.page 3, Example.page 4]] := by
  refine ⟨rfl, rfl, ?_⟩
  obtain ⟨newPdf, h1, -, -, h2, -, -⟩ :=
    extractPages_copies_range Example.lib Example.loaded5 Example.doc5 2 4 rfl rfl
  have h3 : PDFProcessor.extractPages.newPdf Example.loaded5.app Example.doc5 2 4 =
      some [Example.page 2, Example.page 3, Example.page 4] := by decide
  rw [h3] at h1
  cases h1
  exact h2 rfl rfl

/-! ## Splitting into single pages -/

/-- With every single-page save succeeding, the loop of `splitAllPages` adds
one file per remaining page, named after the 1-based page number, in page
order. -/
theorem splitLoop_eq (L : Collaborators) (src : PDFDocument)
    (hsave : ∀ p ∈ src, L.save [p] = true) (fuel : Nat) :
    ∀ (i : Nat) (files : List (String × PDFDocument)), i + fuel = src.length →
      PDFProcessor.splitAllPages.loop L src fuel i files =
        some (files ++ ((src.drop i).enumFrom i).map
          (fun e => ("page_" ++ toString (e.1 + 1) ++ ".pdf", [e.2]))) := by
  induction fuel with
  | zero =>
    intro i files h
    have hd : src.drop i = [] := List.drop_eq_nil_of_le (by omega)
    simp [PDFProcessor.splitAllPages.loop, hd]
  | succ n ih =>
    intro i files h
    have hlt : i < src.length := by omega
    have hcopy : copyPages src [i] = some [src[i]] := by
      unfold copyPages
      rw [List.mapM_cons, List.mapM_nil, List.getElem?_eq_getElem hlt]
      rfl
    unfold PDFProcessor.splitAllPages.loop
    rw [if_pos hlt, hcopy]
    simp only [List.nil_append]
    rw [if_pos (hsave _ (List.getElem_mem hlt)), ih (i + 1) _ (by omega)]
    simp only [List.append_assoc, List.singleton_append]
    conv_rhs => rw [List.drop_eq_getElem_cons hlt]
    rfl

/-- C2. For a loaded document with `N` pages on which every single-page save
succeeds, the loop of `PDFProcessor.splitAllPages` completes with exactly `N` files; for
each `k` in `1..N` the `k`-th file added is named `page_k.pdf` and is a one-page document
holding the copy of source page `k` (0-based position `k - 1`); and when the archive is
generated, that file list, in that order, is what is downloaded as `split_pages.zip`. -/
theorem splitAllPages_outputs (L : Collaborators) (w : World) (doc : PDFDocument)
    (hdoc : w.app.pdfLibDoc = some doc) (hsave : ∀ p ∈ doc, L.save [p] = true) :
    ∃ files : List (String × PDFDocument),
      PDFProcessor.splitAllPages.loop L doc doc.length 0 [] = some files ∧
      files.length = doc.length ∧
      (∀ k : Nat, k < doc.length →
        ∃ p, doc[k]? = some p ∧
          files[k]? = some ("page_" ++ toString (k + 1) ++ ".pdf", [p])) ∧
      (L.generateZip files = true →
        (PDFProcessor.splitAllPages L w).downloads =
          w.downloads ++ [Download.zip "split_pages.zip" "extracted_pages" files]) := by
  have heq := splitLoop_eq L doc hsave doc.length 0 [] (by omega)
  simp only [List.drop_zero, List.nil_append] at heq
  refine ⟨_, heq, by simp, ?_, ?_⟩
  · intro k hk
    refine ⟨doc[k], List.getElem?_eq_getElem hk, ?_⟩
    rw [List.getElem?_map, List.getElem?_enumFrom, List.getElem?_eq_getElem hk]
    simp
  · intro hzip
    simp only [PDFProcessor.splitAllPages, hdoc, Utils.showLoading, heq, hzip,
      Utils.showToast, Utils.hideLoading, if_true]

/-- C2 at a three-page document: the archive holds `page_1.pdf`, `page_2.pdf`,
`page_3.pdf`, each with the one matching page, in that order. -/
theorem splitAllPages_outputs_witness :
    Example.loaded3.app.pdfLibDoc = some Example.doc3 ∧
    (∀ p ∈ Example.doc3, Example.lib.save [p] = true) ∧
    (PDFProcessor.splitAllPages Example.lib Example.loaded3).downloads =
      [Download.zip "split_pages.zip" "extracted_pages"
        [("page_1.pdf", [Example.page 1]), ("page_2.pdf", [Example.page 2]),
         ("page_3.pdf", [Example.page 3])]] := by
  refine ⟨rfl, fun _ _ => rfl, ?_⟩
  obtain ⟨files, h1, -, -, h2⟩ :=
    splitAllPages_outputs Example.lib Example.loaded3 Example.doc3 rfl (fun _ _ => rfl)
  have h3 : PDFProcessor.splitAllPages.loop Example.lib Example.doc3 Example.doc3.length 0 [] =
      some [("page_1.pdf", [Example.page 1]), ("page_2.pdf", [Example.page 2]),
        ("page_3.pdf", [Example.page 3])] := by decide
  rw [h3] at h1
  cases h1
  exact h2 rfl

/-! ## The extract-range click listener -/

/-- What the listener's checks do guarantee: `extractPages` is called exactly
when the bounds after defaulting (`parseInt(..) || 1`, `parseInt(..) ||
totalPages`) satisfy `1 ≤ start ≤ end ≤ totalPages`, and with those bounds;
otherwise the only effect is one error toast. -/
theorem extractPagesClick_guard (L : Collaborators) (startValue endValue : Option Int)
    (w : World) :
    (1 ≤ jsOr startValue 1 ∧ jsOr startValue 1 ≤ jsOr endValue w.app.totalPages ∧
        jsOr endValue w.app.totalPages ≤ w.app.totalPages →
      extractPagesClick L startValue endValue w =
        PDFProcessor.extractPages L (jsOr startValue 1) (jsOr endValue w.app.totalPages) w) ∧
    (¬ (1 ≤ jsOr startValue 1 ∧ jsOr startValue 1 ≤ jsOr endValue w.app.totalPages ∧
        jsOr endValue w.app.totalPages ≤ w.app.totalPages) →
      ∃ message, extractPagesClick L startValue endValue w =
        Utils.showToast message ToastType.error w) := by
  constructor
  · rintro ⟨h1, h2, h3⟩
    simp only [extractPagesClick, extractPagesClick.check]
    rw [if_neg (by omega), if_neg (by omega)]
  · intro h
    simp only [extractPagesClick, extractPagesClick.check]
    by_cases hgt : jsOr startValue 1 > jsOr endValue w.app.totalPages
    · rw [if_pos hgt]; exact ⟨_, rfl⟩
    · rw [if_neg hgt, if_pos (by omega)]; exact ⟨_, rfl⟩

/-- C3, the defect. The user enters start page 0 and end page 3 on a five-page
document. `parseInt("0") || 1` is 1, so the request passes both checks:
`extractPages(1, 3)` runs and `extracted_pages_1_to_3.pdf` is downloaded with a
success toast, although 0 is outside `[1, 5]`. The request `(5, 2)` of the spec's
scenario is rejected with an error toast and nothing else changes. -/
theorem extractPagesClick_zero_start_accepted :
    extractPagesClick.check (some 0) (some 3) Example.loaded5.app = Except.ok (1, 3) ∧
    extractPagesClick Example.lib (some 0) (some 3) Example.loaded5 =
      PDFProcessor.extractPages Example.lib 1 3 Example.loaded5 ∧
    (extractPagesClick Example.lib (some 0) (some 3) Example.loaded5).downloads =
      [Download.pdf "extracted_pages_1_to_3.pdf"
        [Example.page 1, Example.page 2, Example.page 3]] ∧
    (extractPagesClick Example.lib (some 0) (some 3) Example.loaded5).toasts =
      [⟨"Pages extracted successfully", ToastType.success⟩] ∧
    extractPagesClick Example.lib (some 5) (some 2) Example.loaded5 =
      Utils.showToast "Start page must be less than end page" ToastType.error
        Example.loaded5 := by
  refine ⟨rfl, rfl, ?_, ?_, rfl⟩ <;> decide

/-! ## Loading -/

/-- C4, as stated, fails. Loading bytes that are not a PDF from the empty state
(the file picker lets them through when the browser reports the type
`application/pdf`) ends with an error toast and with `pdfBytes`, `fileName`
and `fileSize` set while `pdfDoc` and `pdfLibDoc` are absent: the state is
neither its prior value nor empty, and `pdfBytes` is present without the
handles. -/
theorem loadFromFile_failure_keeps_bytes :
    (fileInputChange Example.libNotPdf (some Example.file) Example.start).app ≠
      Example.start.app ∧
    (fileInputChange Example.libNotPdf (some Example.file) Example.start).app ≠
      AppState.empty ∧
    (fileInputChange Example.libNotPdf (some Example.file) Example.start).app.pdfBytes =
      some [104, 105, 33, 10] ∧
    (fileInputChange Example.libNotPdf (some Example.file) Example.start).app.pdfDoc = none ∧
    (fileInputChange Example.libNotPdf (some Example.file) Example.start).app.pdfLibDoc = none ∧
    (fileInputChange Example.libNotPdf (some Example.file) Example.start).toasts =
      [⟨"Failed to load PDF. Please try another file.", ToastType.error⟩] := by
  decide

/-- C4, amended. When a decoding step of `PDFLoader.loadFromFile` fails, the
load is reported by one error toast (no success toast, no download, overlay
hidden) and `AppState` is what the assignments made before the failing call
left: `pdfBytes`, `fileName` and `fileSize` are those of the new file;
`pdfLibDoc` and `scale` keep their prior values; `pdfDoc`, `totalPages` and
`currentPage` keep their prior values when the render handle could not be
built, and are those of the new file (`totalPages = numPages`,
`currentPage = 1`) when only the edit handle could not be built. -/
theorem loadFromFile_decode_failure (L : Collaborators) (file : File) (w : World)
    (bytes : Bytes) (hbuf : L.arrayBuffer file = some bytes)
    (hfail : L.getDocument bytes = none ∨ L.load bytes = none) :
    (PDFLoader.loadFromFile L file w).toasts =
      w.toasts ++ [⟨"Failed to load PDF. Please try another file.", ToastType.error⟩] ∧
    (PDFLoader.loadFromFile L file w).downloads = w.downloads ∧
    (PDFLoader.loadFromFile L file w).loading = none ∧
    (PDFLoader.loadFromFile L file w).app.pdfBytes = some bytes ∧
    (PDFLoader.loadFromFile L file w).app.fileName = file.name ∧
    (PDFLoader.loadFromFile L file w).app.fileSize = file.size ∧
    (PDFLoader.loadFromFile L file w).app.pdfLibDoc = w.app.pdfLibDoc ∧
    (PDFLoader.loadFromFile L file w).app.scale = w.app.scale ∧
    (L.getDocument bytes = none →
      (PDFLoader.loadFromFile L file w).app.pdfDoc = w.app.pdfDoc ∧
      (PDFLoader.loadFromFile L file w).app.totalPages = w.app.totalPages ∧
      (PDFLoader.loadFromFile L file w).app.currentPage = w.app.currentPage) ∧
    (∀ pdfDoc, L.getDocument bytes = some pdfDoc →
      (PDFLoader.loadFromFile L file w).app.pdfDoc = some pdfDoc ∧
      (PDFLoader.loadFromFile L file w).app.totalPages = (pdfDoc.numPages : Int) ∧
      (PDFLoader.loadFromFile L file w).app.currentPage = 1) := by
  cases hg : L.getDocument bytes with
  | none =>
    simp [PDFLoader.loadFromFile, PDFLoader.loadFromFile.onError, Utils.showLoading,
      Utils.showToast, Utils.hideLoading, hbuf, hg]
  | some d =>
    have hl : L.load bytes = none := by
      rcases hfail with h | h
      · rw [hg] at h; cases h
      · exact h
    simp [PDFLoader.loadFromFile, PDFLoader.loadFromFile.onError, Utils.showLoading,
      Utils.showToast, Utils.hideLoading, hbuf, hg, hl]

/-- C4, amended, at a load whose edit decoder rejects the bytes after the
render decoder accepted them. -/
theorem loadFromFile_decode_failure_witness :
    Example.libEditFails.arrayBuffer Example.file = some [37, 80, 68, 70] ∧
    (Example.libEditFails.getDocument [37, 80, 68, 70] = none ∨
      Example.libEditFails.load [37, 80, 68, 70] = none) ∧
    (PDFLoader.loadFromFile Example.libEditFails Example.file Example.start).app.pdfLibDoc =
      none ∧
    (PDFLoader.loadFromFile Example.libEditFails Example.file Example.start).app.pdfDoc =
      some ⟨5⟩ ∧
    (PDFLoader.loadFromFile Example.libEditFails Example.file Example.start).app.totalPages =
      5 := by
  have h := loadFromFile_decode_failure Example.libEditFails Example.file Example.start
    [37, 80, 68, 70] rfl (Or.inr rfl)
  exact ⟨rfl, Or.inr rfl, h.2.2.2.2.2.2.1, (h.2.2.2.2.2.2.2.2.2 ⟨5⟩ rfl).1,
    (h.2.2.2.2.2.2.2.2.2 ⟨5⟩ rfl).2.1⟩

/-- C8, as stated, fails. With a render handle of two pages and an edit handle
of three, the load succeeds: `AppState` is populated, the success toast is
shown, and `totalPages` is 2 while the edit handle has 3 pages. -/
theorem loadFromFile_accepts_page_count_mismatch :
    (PDFLoader.loadFromFile Example.libMismatch Example.file Example.start).app.pdfDoc =
      some ⟨2⟩ ∧
    (PDFLoader.loadFromFile Example.libMismatch Example.file Example.start).app.pdfLibDoc =
      some Example.doc3 ∧
    (PDFLoader.loadFromFile Example.libMismatch Example.file Example.start).app.totalPages =
      2 ∧
    (PDFLoader.loadFromFile Example.libMismatch Example.file Example.start).app.totalPages ≠
      (Example.doc3.length : Int) ∧
    (PDFLoader.loadFromFile Example.libMismatch Example.file Example.start).toasts =
      [⟨"PDF loaded successfully", ToastType.success⟩] := by
  decide

/-- C8, amended. `PDFLoader.loadFromFile` never compares the two page counts:
whenever both decoding steps succeed the load succeeds, whatever the edit
handle's page count. `AppState` then holds both handles, `totalPages` is the
render handle's `numPages`, `currentPage` is 1, and the success toast is the
last toast shown. -/
theorem loadFromFile_success_totalPages (L : Collaborators) (file : File) (w : World)
    (bytes : Bytes) (pdfDoc : PDFDocumentProxy) (pdfLibDoc : PDFDocument)
    (hbuf : L.arrayBuffer file = some bytes) (hrender : L.getDocument bytes = some pdfDoc)
    (hedit : L.load bytes = some pdfLibDoc) :
    (PDFLoader.loadFromFile L file w).app =
      { w.app with pdfBytes := some bytes, fileName := file.name, fileSize := file.size,
                   pdfDoc := some pdfDoc, totalPages := (pdfDoc.numPages : Int),
                   currentPage := 1, pdfLibDoc := some pdfLibDoc } ∧
    (PDFLoader.loadFromFile L file w).toasts.getLast? =
      some ⟨"PDF loaded successfully", ToastType.success⟩ := by
  simp only [PDFLoader.loadFromFile, Utils.showLoading, Utils.showToast, Utils.hideLoading,
    hbuf, hrender, hedit, PDFRenderer.renderPage]
  split <;> simp

/-- C8, amended, at the load with mismatching page counts. -/
theorem loadFromFile_success_totalPages_witness :
    Example.libMismatch.arrayBuffer Example.file = some [37, 80, 68, 70] ∧
    Example.libMismatch.getDocument [37, 80, 68, 70] = some ⟨2⟩ ∧
    Example.libMismatch.load [37, 80, 68, 70] = some Example.doc3 ∧
    (PDFLoader.loadFromFile Example.libMismatch Example.file Example.start).toasts.getLast? =
      some ⟨"PDF loaded successfully", ToastType.success⟩ :=
  ⟨rfl, rfl, rfl, (loadFromFile_success_totalPages Example.libMismatch Example.file
    Example.start [37, 80, 68, 70] ⟨2⟩ Example.doc3 rfl rfl rfl).2⟩

/-! ## Watermarking -/

/-- A hexadecimal digit has a value below 16. -/
theorem hexDigit_le (c : Char) (d : Nat) (h : hexDigit c = some d) : d ≤ 15 := by
  unfold hexDigit at h
  split_ifs at h <;> simp at h <;> omega

/-- A hexadecimal digit is not white space. -/
theorem hexDigit_not_whiteSpace (c : Char) (d : Nat) (h : hexDigit c = some d) :
    isWhiteSpace c = false := by
  unfold hexDigit at h
  unfold isWhiteSpace
  split_ifs at h <;> simp <;> omega

/-- On two hexadecimal digits, `parseInt(s, 16)` is their base-16 value. -/
theorem parseIntHex_two (c₁ c₂ : Char) (d₁ d₂ : Nat) (h₁ : hexDigit c₁ = some d₁)
    (h₂ : hexDigit c₂ = some d₂) :
    parseIntHex [c₁, c₂] = some ((16 * d₁ + d₂ : Nat) : Int) := by
  have hm : c₁ ≠ '-' := by
    rintro rfl
    rw [show hexDigit '-' = none by decide] at h₁
    cases h₁
  have hp : c₁ ≠ '+' := by
    rintro rfl
    rw [show hexDigit '+' = none by decide] at h₁
    cases h₁
  have hx : c₂ ≠ 'x' := by
    rintro rfl
    rw [show hexDigit 'x' = none by decide] at h₂
    cases h₂
  have hX : c₂ ≠ 'X' := by
    rintro rfl
    rw [show hexDigit 'X' = none by decide] at h₂
    cases h₂
  have hw := hexDigit_not_whiteSpace c₁ d₁ h₁
  have hs : stripSign [c₁, c₂] = (false, [c₁, c₂]) := by
    unfold stripSign
    split <;> simp_all
  have hk : stripHexMarker [c₁, c₂] = [c₁, c₂] := by
    unfold stripHexMarker
    split <;> simp_all
  have hd : hexDigits [c₁, c₂] 0 0 = (16 * d₁ + d₂, 2) := by
    simp [hexDigits, h₁, h₂]
  unfold parseIntHex
  simp [List.dropWhile, hw, hs, hk, hd]

/-- A colour channel written as two hexadecimal digits decodes to their value
over 255, which lies in `[0, 1]`. -/
theorem channel_two (c₁ c₂ : Char) (d₁ d₂ : Nat) (h₁ : hexDigit c₁ = some d₁)
    (h₂ : hexDigit c₂ = some d₂) :
    (parseIntHex [c₁, c₂]).map (fun n => (n : ℚ) / 255) = some (((16 * d₁ + d₂ : Nat) : ℚ) / 255) ∧
    0 ≤ ((16 * d₁ + d₂ : Nat) : ℚ) / 255 ∧ ((16 * d₁ + d₂ : Nat) : ℚ) / 255 ≤ 1 := by
  have hb₁ := hexDigit_le c₁ d₁ h₁
  have hb₂ := hexDigit_le c₂ d₂ h₂
  refine ⟨by rw [parseIntHex_two c₁ c₂ d₁ d₂ h₁ h₂]; simp, by positivity, ?_⟩
  rw [div_le_one (by norm_num)]
  have : 16 * d₁ + d₂ ≤ 255 := by omega
  exact_mod_cast this

/-- The options are never computed: the width of the text is asked of a font
name, which throws. -/
theorem watermark_options_throws (text font : String) (size opacity rotation : Int)
    (color : String) (page : PDFPage) :
    PDFProcessor.addWatermark.options text font size opacity rotation color page = none :=
  rfl

/-- The loop over the pages throws at the first page, before any `drawText`:
the pages are left as they were, and the loop ends normally only when there is
no page. -/
theorem watermarkLoop_eq (L : Collaborators) (text font : String)
    (size opacity rotation : Int) (color : String) (pages : List PDFPage) :
    PDFProcessor.addWatermark.loop L text font size opacity rotation color pages =
      (pages, decide (pages = [])) := by
  cases pages with
  | nil => rfl
  | cons p ps =>
    unfold PDFProcessor.addWatermark.loop
    rw [watermark_options_throws]
    simp

/-- Writing back the edit handle that is already there changes nothing. -/
theorem AppState.set_pdfLibDoc_self (app : AppState) (doc : PDFDocument)
    (h : app.pdfLibDoc = some doc) : { app with pdfLibDoc := some doc } = app := by
  cases app
  simp only at h
  subst h
  rfl

/-- On a document with at least one page and with text that is not blank,
`addWatermark` always fails: one error toast, nothing drawn, nothing
downloaded, `AppState` as before. -/
theorem addWatermark_on_pages (L : Collaborators) (text font : String)
    (size opacity rotation : Int) (color : String) (w : World) (doc : PDFDocument)
    (hdoc : w.app.pdfLibDoc = some doc) (htext : jsTrim text ≠ "") (hpages : doc ≠ []) :
    PDFProcessor.addWatermark L text font size opacity rotation color w =
      { w with toasts := w.toasts ++ [⟨"Failed to add watermark", ToastType.error⟩],
               loading := none } := by
  have hne : decide (doc = []) = false := by simpa using hpages
  unfold PDFProcessor.addWatermark
  simp only [hdoc, htext, if_false, watermarkLoop_eq, hne, Utils.showLoading,
    Utils.hideLoading, Utils.showToast, Bool.false_eq_true]
  rw [AppState.set_pdfLibDoc_self w.app doc hdoc]

/-- On a document without pages and with text that is not blank, the loop of
`addWatermark` has nothing to do and `save()` adds its blank page to the edit
handle; what follows depends on the serialisation and the download. -/
theorem addWatermark_on_empty (L : Collaborators) (text font : String)
    (size opacity rotation : Int) (color : String) (w : World)
    (hdoc : w.app.pdfLibDoc = some []) (htext : jsTrim text ≠ "") :
    PDFProcessor.addWatermark L text font size opacity rotation color w =
      if L.save [blankPage] = true then
        if L.download ("watermarked_" ++ w.app.fileName) = true then
          { app := { w.app with pdfLibDoc := some [blankPage] },
            toasts := w.toasts ++ [⟨"Watermark added successfully", ToastType.success⟩],
            downloads := w.downloads ++
              [Download.pdf ("watermarked_" ++ w.app.fileName) [blankPage]],
            loading := none }
        else
          { app := { w.app with pdfLibDoc := some [blankPage] },
            toasts := w.toasts ++ [⟨"Failed to download PDF", ToastType.error⟩,
              ⟨"Watermark added successfully", ToastType.success⟩],
            downloads := w.downloads, loading := none }
      else
        { app := { w.app with pdfLibDoc := some [blankPage] },
          toasts := w.toasts ++ [⟨"Failed to add watermark", ToastType.error⟩],
          downloads := w.downloads, loading := none } := by
  unfold PDFProcessor.addWatermark
  simp only [hdoc, htext, if_false, watermarkLoop_eq, Utils.showLoading,
    Utils.hideLoading, Utils.showToast, PDFProcessor.downloadPdf, addDefaultPage]
  by_cases h3 : L.save [blankPage] = true
  · by_cases h4 : L.download ("watermarked_" ++ w.app.fileName) = true
    · simp [h3, h4]
    · simp [h3, h4]
  · simp [h3]

/-- C5, the defect. On the five-page document `a.pdf` the call
`addWatermark("DRAFT", "Helvetica", 48, 50, 45, "#FF0000")` does not draw the
text on every page, as the claim and the comments of the method say: the width
of the text is asked of the font name and that call throws on the first page.
The call ends with the toast "Failed to add watermark"; no page has a text
draw, nothing is downloaded, and `AppState` is as before. -/
theorem addWatermark_throws_on_first_page :
    widthOfTextAtSize (PDFProcessor.addWatermark.pdfFont "Helvetica") "DRAFT" 48 = none ∧
    PDFProcessor.addWatermark Example.lib "DRAFT" "Helvetica" 48 50 45 "#FF0000"
        Example.loaded5 =
      { Example.loaded5 with toasts := [⟨"Failed to add watermark", ToastType.error⟩] } ∧
    (PDFProcessor.addWatermark Example.lib "DRAFT" "Helvetica" 48 50 45 "#FF0000"
        Example.loaded5).app.pdfLibDoc = some Example.doc5 ∧
    (∀ p ∈ Example.doc5, p.draws = []) ∧
    (PDFProcessor.addWatermark Example.lib "DRAFT" "Helvetica" 48 50 45 "#FF0000"
        Example.loaded5).downloads = [] := by
  refine ⟨rfl, ?_, ?_, ?_, ?_⟩ <;> decide

/-- C6. When the text is empty after trimming, `addWatermark` only appends the
warning toast "Please enter watermark text": `AppState` (the edit handle
included), the downloads and the overlay are as before, so no page is drawn on
and nothing is delivered. Conversely, with a document loaded and text that is
not empty after trimming, the call is not stopped by the check: the loop over
the pages runs (the edit handle is what the loop leaves, after the blank page
of `save()` when the loop ended normally) and no warning toast is added. -/
theorem addWatermark_blank_text_rejected (L : Collaborators) (text font : String)
    (size opacity rotation : Int) (color : String) (w : World) :
    (jsTrim text = "" →
      PDFProcessor.addWatermark L text font size opacity rotation color w =
        { w with toasts := w.toasts ++ [⟨"Please enter watermark text", ToastType.warning⟩] }) ∧
    (∀ pdfLibDoc, w.app.pdfLibDoc = some pdfLibDoc → jsTrim text ≠ "" →
      (PDFProcessor.addWatermark L text font size opacity rotation color w).app.pdfLibDoc =
        some (if (PDFProcessor.addWatermark.loop L text font size opacity rotation color
            pdfLibDoc).2 = true then
          addDefaultPage (PDFProcessor.addWatermark.loop L text font size opacity rotation color
            pdfLibDoc).1
        else (PDFProcessor.addWatermark.loop L text font size opacity rotation color
          pdfLibDoc).1) ∧
      ∃ ts, (PDFProcessor.addWatermark L text font size opacity rotation color w).toasts =
          w.toasts ++ ts ∧ ∀ t ∈ ts, t.type ≠ ToastType.warning) := by
  constructor
  · intro h
    unfold PDFProcessor.addWatermark
    cases w.app.pdfLibDoc with
    | none => rfl
    | some d => simp only [h, if_true]; rfl
  · intro d hd hne
    cases d with
    | nil =>
      rw [addWatermark_on_empty L text font size opacity rotation color w hd hne]
      simp only [watermarkLoop_eq, addDefaultPage, decide_True, if_true]
      by_cases h3 : L.save [blankPage] = true
      · by_cases h4 : L.download ("watermarked_" ++ w.app.fileName) = true
        · exact ⟨by simp [h3, h4], [⟨"Watermark added successfully", ToastType.success⟩],
            by simp [h3, h4], by simp⟩
        · exact ⟨by simp [h3, h4], [⟨"Failed to download PDF", ToastType.error⟩,
            ⟨"Watermark added successfully", ToastType.success⟩], by simp [h3, h4], by simp⟩
      · exact ⟨by simp [h3], [⟨"Failed to add watermark", ToastType.error⟩], by simp [h3],
          by simp⟩
    | cons p ps =>
      rw [addWatermark_on_pages L text font size opacity rotation color w (p :: ps) hd hne
        (by simp)]
      simp only [watermarkLoop_eq]
      exact ⟨by simp [hd], [⟨"Failed to add watermark", ToastType.error⟩], rfl, by simp⟩

/-- C6 at a text of blanks, tab and newline (rejected) and at " DRAFT " (not
rejected) on the five-page document. -/
theorem addWatermark_blank_text_rejected_witness :
    jsTrim " \t\n " = "" ∧
    PDFProcessor.addWatermark Example.lib " \t\n " "Helvetica" 48 50 45 "#FF0000"
        Example.loaded5 =
      { Example.loaded5 with
        toasts := [⟨"Please enter watermark text", ToastType.warning⟩] } ∧
    Example.loaded5.app.pdfLibDoc = some Example.doc5 ∧ jsTrim " DRAFT " ≠ "" ∧
    (PDFProcessor.addWatermark Example.lib " DRAFT " "Helvetica" 48 50 45 "#FF0000"
        Example.loaded5).app.pdfLibDoc =
      some (PDFProcessor.addWatermark.loop Example.lib " DRAFT " "Helvetica" 48 50 45
        "#FF0000" Example.doc5).1 :=
  ⟨by decide,
    (addWatermark_blank_text_rejected Example.lib " \t\n " "Helvetica" 48 50 45 "#FF0000"
      Example.loaded5).1 (by decide),
    rfl, by decide,
    ((addWatermark_blank_text_rejected Example.lib " DRAFT " "Helvetica" 48 50 45 "#FF0000"
      Example.loaded5).2 Example.doc5 rfl (by decide)).1⟩

/-- C7, as stated, fails. On a document without pages the loop has nothing to
do and saving is reached; `save()` first adds its blank page to the edit
handle, and when it then throws, the error toast is shown and nothing is
downloaded, but the edit handle keeps that page: `AppState` is not what it was
before the call. -/
theorem addWatermark_failure_keeps_blank_page :
    (PDFProcessor.addWatermark Example.libSaveFails "DRAFT" "Helvetica" 48 50 45 "#FF0000"
      Example.loaded0).toasts = [⟨"Failed to add watermark", ToastType.error⟩] ∧
    (PDFProcessor.addWatermark Example.libSaveFails "DRAFT" "Helvetica" 48 50 45 "#FF0000"
      Example.loaded0).downloads = [] ∧
    Example.loaded0.app.pdfLibDoc = some [] ∧
    (PDFProcessor.addWatermark Example.libSaveFails "DRAFT" "Helvetica" 48 50 45 "#FF0000"
      Example.loaded0).app.pdfLibDoc = some [blankPage] ∧
    (PDFProcessor.addWatermark Example.libSaveFails "DRAFT" "Helvetica" 48 50 45 "#FF0000"
      Example.loaded0).app ≠ Example.loaded0.app := by
  refine ⟨?_, ?_, ?_, ?_, ?_⟩ <;> decide!

/-- C7, amended. When `addWatermark` fails, nothing is downloaded, the one
toast added is the error toast, the overlay is hidden, and no page carries a
stamp of the failed call. After a failure in the loop over the pages, which is
how every call on a document with pages ends, `AppState` is exactly as before
the call. Saving is reached only on a document without pages; after a failure
there, every field of `AppState` other than the edit handle is as before, and
the edit handle holds the one blank page that `save()` had added, with no text
on it. -/
theorem addWatermark_failure (L : Collaborators) (text font : String)
    (size opacity rotation : Int) (color : String) (w : World) (doc : PDFDocument)
    (hdoc : w.app.pdfLibDoc = some doc) (htext : jsTrim text ≠ "") :
    ((PDFProcessor.addWatermark.loop L text font size opacity rotation color doc).2 = false →
      (PDFProcessor.addWatermark L text font size opacity rotation color w).downloads =
        w.downloads ∧
      (PDFProcessor.addWatermark L text font size opacity rotation color w).toasts =
        w.toasts ++ [⟨"Failed to add watermark", ToastType.error⟩] ∧
      (PDFProcessor.addWatermark L text font size opacity rotation color w).loading = none ∧
      (PDFProcessor.addWatermark L text font size opacity rotation color w).app = w.app) ∧
    ((PDFProcessor.addWatermark.loop L text font size opacity rotation color doc).2 = true →
      L.save (addDefaultPage
        (PDFProcessor.addWatermark.loop L text font size opacity rotation color doc).1) =
        false →
      (PDFProcessor.addWatermark L text font size opacity rotation color w).downloads =
        w.downloads ∧
      (PDFProcessor.addWatermark L text font size opacity rotation color w).toasts =
        w.toasts ++ [⟨"Failed to add watermark", ToastType.error⟩] ∧
      (PDFProcessor.addWatermark L text font size opacity rotation color w).loading = none ∧
      doc = [] ∧
      (PDFProcessor.addWatermark L text font size opacity rotation color w).app =
        { w.app with pdfLibDoc := some [blankPage] } ∧
      blankPage.draws = []) ∧
    (doc ≠ [] →
      (PDFProcessor.addWatermark.loop L text font size opacity rotation color doc).2 =
        false) := by
  refine ⟨?_, ?_, ?_⟩
  · intro hloop
    have hpages : doc ≠ [] := by
      intro h
      rw [watermarkLoop_eq, h] at hloop
      simp at hloop
    rw [addWatermark_on_pages L text font size opacity rotation color w doc hdoc htext hpages]
    exact ⟨rfl, rfl, rfl, rfl⟩
  · intro hloop hsave
    have hempty : doc = [] := by
      rw [watermarkLoop_eq] at hloop
      simpa using hloop
    subst hempty
    rw [watermarkLoop_eq] at hsave
    have hs : ¬ L.save [blankPage] = true := by
      simpa [addDefaultPage] using hsave
    rw [addWatermark_on_empty L text font size opacity rotation color w hdoc htext, if_neg hs]
    exact ⟨rfl, rfl, rfl, rfl, rfl, rfl⟩
  · intro hpages
    rw [watermarkLoop_eq]
    simpa using hpages

/-- C7, amended, at the call on the five-page document, which fails at its
first page. -/
theorem addWatermark_failure_witness :
    Example.loaded5.app.pdfLibDoc = some Example.doc5 ∧ jsTrim "DRAFT" ≠ "" ∧
    (PDFProcessor.addWatermark.loop Example.lib "DRAFT" "Helvetica" 48 50 45 "#FF0000"
      Example.doc5).2 = false ∧
    (PDFProcessor.addWatermark Example.lib "DRAFT" "Helvetica" 48 50 45 "#FF0000"
      Example.loaded5).downloads = Example.loaded5.downloads ∧
    (PDFProcessor.addWatermark Example.lib "DRAFT" "Helvetica" 48 50 45 "#FF0000"
      Example.loaded5).app = Example.loaded5.app :=
  ⟨rfl, by decide, by decide,
    ((addWatermark_failure Example.lib "DRAFT" "Helvetica" 48 50 45 "#FF0000"
      Example.loaded5 Example.doc5 rfl (by decide)).1 (by decide)).1,
    ((addWatermark_failure Example.lib "DRAFT" "Helvetica" 48 50 45 "#FF0000"
      Example.loaded5 Example.doc5 rfl (by decide)).1 (by decide)).2.2.2⟩

/-! ## Page navigation and zoom -/

/-- Rendering never writes to `AppState`. -/
theorem renderPage_app (L : Collaborators) (pageNumber : Int) (w : World) :
    (PDFRenderer.renderPage L pageNumber w).app = w.app := by
  unfold PDFRenderer.renderPage
  split
  · rfl
  · split <;> rfl

/-- The re-render at the end of a navigation method never writes to `AppState`. -/
theorem thisRenderPage_app (L : Collaborators) (bound : Bool) (w : World) :
    (PDFRenderer.thisRenderPage L bound w).app = w.app := by
  unfold PDFRenderer.thisRenderPage
  split
  · exact renderPage_app L _ w
  · rfl

/-- The effect of `nextPage` on `AppState`. -/
theorem nextPage_app (L : Collaborators) (bound : Bool) (w : World) :
    (PDFRenderer.nextPage L bound w).app =
      if w.app.currentPage < w.app.totalPages then
        { w.app with currentPage := w.app.currentPage + 1 }
      else w.app := by
  unfold PDFRenderer.nextPage
  split
  · rw [thisRenderPage_app]
  · rfl

/-- The effect of `prevPage` on `AppState`. -/
theorem prevPage_app (L : Collaborators) (bound : Bool) (w : World) :
    (PDFRenderer.prevPage L bound w).app =
      if w.app.currentPage > 1 then { w.app with currentPage := w.app.currentPage - 1 }
      else w.app := by
  unfold PDFRenderer.prevPage
  split
  · rw [thisRenderPage_app]
  · rfl

/-- One navigation request keeps `currentPage` within `[1, totalPages]` and
writes no other field. -/
theorem navStep_inv (L : Collaborators) (c : NavCmd × Bool) (w : World)
    (h : 1 ≤ w.app.currentPage ∧ w.app.currentPage ≤ w.app.totalPages) :
    (1 ≤ (NavCmd.run L c w).app.currentPage ∧
      (NavCmd.run L c w).app.currentPage ≤ (NavCmd.run L c w).app.totalPages) ∧
    (NavCmd.run L c w).app =
      { w.app with currentPage := (NavCmd.run L c w).app.currentPage } := by
  obtain ⟨c, b⟩ := c
  cases c
  · simp only [NavCmd.run, nextPage_app]
    split
    · exact ⟨⟨by simp only; omega, by simp only; omega⟩, rfl⟩
    · exact ⟨h, rfl⟩
  · simp only [NavCmd.run, prevPage_app]
    split
    · exact ⟨⟨by simp only; omega, by simp only; omega⟩, rfl⟩
    · exact ⟨h, rfl⟩

/-- Any sequence of navigation requests keeps `currentPage` within
`[1, totalPages]` and writes no other field. -/
theorem runNav_inv (L : Collaborators) (cs : List (NavCmd × Bool)) :
    ∀ w : World, 1 ≤ w.app.currentPage ∧ w.app.currentPage ≤ w.app.totalPages →
      (1 ≤ (runNav L cs w).app.currentPage ∧
        (runNav L cs w).app.currentPage ≤ (runNav L cs w).app.totalPages) ∧
      (runNav L cs w).app = { w.app with currentPage := (runNav L cs w).app.currentPage } := by
  induction cs with
  | nil => intro w h; exact ⟨h, rfl⟩
  | cons c cs ih =>
    intro w h
    obtain ⟨h1, h2⟩ := navStep_inv L c w h
    obtain ⟨h3, h4⟩ := ih (NavCmd.run L c w) h1
    have hrun : runNav L (c :: cs) w = runNav L cs (NavCmd.run L c w) := rfl
    rw [hrun]
    refine ⟨h3, ?_⟩
    rw [h4, h2]

/-- C9. In a state with `1 ≤ currentPage ≤ totalPages`: `nextPage` sets
`currentPage` to `currentPage + 1` when `currentPage < totalPages` and otherwise changes
nothing; `prevPage` sets it to `currentPage - 1` when `currentPage > 1` and otherwise
changes nothing; after any sequence of `nextPage` / `prevPage` calls `currentPage` is still
within `[1, totalPages]`, and no field of `AppState` other than `currentPage` has changed. -/
theorem navigation_clamped (L : Collaborators) (w : World)
    (h : 1 ≤ w.app.currentPage ∧ w.app.currentPage ≤ w.app.totalPages) :
    (∀ bound, w.app.currentPage < w.app.totalPages →
      (PDFRenderer.nextPage L bound w).app =
        { w.app with currentPage := w.app.currentPage + 1 }) ∧
    (∀ bound, ¬ w.app.currentPage < w.app.totalPages → PDFRenderer.nextPage L bound w = w) ∧
    (∀ bound, w.app.currentPage > 1 →
      (PDFRenderer.prevPage L bound w).app =
        { w.app with currentPage := w.app.currentPage - 1 }) ∧
    (∀ bound, ¬ w.app.currentPage > 1 → PDFRenderer.prevPage L bound w = w) ∧
    (∀ cs : List (NavCmd × Bool),
      1 ≤ (runNav L cs w).app.currentPage ∧
      (runNav L cs w).app.currentPage ≤ w.app.totalPages ∧
      (runNav L cs w).app = { w.app with currentPage := (runNav L cs w).app.currentPage }) := by
  refine ⟨?_, ?_, ?_, ?_, ?_⟩
  · intro b hlt
    rw [nextPage_app, if_pos hlt]
  · intro b hlt
    unfold PDFRenderer.nextPage
    rw [if_neg hlt]
  · intro b hgt
    rw [prevPage_app, if_pos hgt]
  · intro b hgt
    unfold PDFRenderer.prevPage
    rw [if_neg hgt]
  · intro cs
    obtain ⟨⟨h1, h2⟩, h3⟩ := runNav_inv L cs w h
    refine ⟨h1, ?_, h3⟩
    have ht : (runNav L cs w).app.totalPages = w.app.totalPages := by rw [h3]
    rw [← ht]
    exact h2

/-- C9 on the five-page document at page 1: `prevPage` changes nothing,
`nextPage` moves to page 2, and six `nextPage` requests stop at page 5. -/
theorem navigation_clamped_witness :
    (1 ≤ Example.loaded5.app.currentPage ∧
      Example.loaded5.app.currentPage ≤ Example.loaded5.app.totalPages) ∧
    PDFRenderer.prevPage Example.lib true Example.loaded5 = Example.loaded5 ∧
    (PDFRenderer.nextPage Example.lib true Example.loaded5).app =
      { Example.loaded5.app with currentPage := 2 } ∧
    (runNav Example.lib (List.replicate 6 (NavCmd.next, false)) Example.loaded5).app.currentPage
      ≤ 5 :=
  ⟨by decide,
    (navigation_clamped Example.lib Example.loaded5 (by decide)).2.2.2.1 true (by decide),
    (navigation_clamped Example.lib Example.loaded5 (by decide)).1 true (by decide),
    ((navigation_clamped Example.lib Example.loaded5 (by decide)).2.2.2.2 _).2.1⟩

/-- The effect of `zoomIn` on `AppState`. -/
theorem zoomIn_app (L : Collaborators) (bound : Bool) (w : World) :
    (PDFRenderer.zoomIn L bound w).app =
      if w.app.scale < 3.0 then { w.app with scale := min 3.0 (w.app.scale + 0.25) }
      else w.app := by
  unfold PDFRenderer.zoomIn
  split
  · rw [thisRenderPage_app]
  · rfl

/-- The effect of `zoomOut` on `AppState`. -/
theorem zoomOut_app (L : Collaborators) (bound : Bool) (w : World) :
    (PDFRenderer.zoomOut L bound w).app =
      if w.app.scale > 0.5 then { w.app with scale := max 0.5 (w.app.scale - 0.25) }
      else w.app := by
  unfold PDFRenderer.zoomOut
  split
  · rw [thisRenderPage_app]
  · rfl

/-- From a scale of `k / 4` with `2 ≤ k ≤ 12`, `zoomIn` leads to
`min 12 (k + 1) / 4`. -/
theorem zoomIn_quarters (L : Collaborators) (bound : Bool) (w : World) (k : Nat)
    (hk : 2 ≤ k ∧ k ≤ 12) (hs : w.app.scale = (k : ℚ) / 4) :
    (PDFRenderer.zoomIn L bound w).app.scale = ((min 12 (k + 1) : Nat) : ℚ) / 4 := by
  rw [zoomIn_app]
  have hk2 : (k : ℚ) ≤ 12 := by exact_mod_cast hk.2
  by_cases h12 : k = 12
  · subst h12
    rw [if_neg (by rw [hs]; norm_num), hs]
    norm_num
  · have hlt : k + 1 ≤ 12 := by omega
    have hlt' : (k : ℚ) + 1 ≤ 12 := by exact_mod_cast hlt
    rw [if_pos (by rw [hs]; norm_num; linarith)]
    simp only [hs, Nat.min_eq_right hlt]
    rw [min_eq_right (by norm_num; linarith)]
    push_cast
    ring

/-- From a scale of `k / 4` with `2 ≤ k ≤ 12`, `zoomOut` leads to
`max 2 (k - 1) / 4`. -/
theorem zoomOut_quarters (L : Collaborators) (bound : Bool) (w : World) (k : Nat)
    (hk : 2 ≤ k ∧ k ≤ 12) (hs : w.app.scale = (k : ℚ) / 4) :
    (PDFRenderer.zoomOut L bound w).app.scale = ((max 2 (k - 1) : Nat) : ℚ) / 4 := by
  rw [zoomOut_app]
  have hk1 : (2 : ℚ) ≤ k := by exact_mod_cast hk.1
  by_cases h2 : k = 2
  · subst h2
    rw [if_neg (by rw [hs]; norm_num), hs]
    norm_num
  · have hgt : 2 ≤ k - 1 := by omega
    have hgt' : (3 : ℚ) ≤ k := by exact_mod_cast (show 3 ≤ k by omega)
    rw [if_pos (by rw [hs]; norm_num; linarith)]
    simp only [hs, Nat.max_eq_right hgt]
    rw [max_eq_right (by norm_num; linarith)]
    rw [Nat.cast_sub (by omega)]
    push_cast
    ring

/-- Every scale reached from a multiple of 0.25 in `[0.5, 3.0]` is again such a
multiple: floating-point arithmetic on these values is exact. -/
theorem runZoom_quarters (L : Collaborators) (cs : List (ZoomCmd × Bool)) :
    ∀ (w : World) (k : Nat), 2 ≤ k ∧ k ≤ 12 → w.app.scale = (k : ℚ) / 4 →
      ∃ k' : Nat, (2 ≤ k' ∧ k' ≤ 12) ∧ (runZoom L cs w).app.scale = (k' : ℚ) / 4 := by
  induction cs with
  | nil => intro w k hk hs; exact ⟨k, hk, hs⟩
  | cons c cs ih =>
    intro w k hk hs
    have hrun : runZoom L (c :: cs) w = runZoom L cs (ZoomCmd.run L c w) := rfl
    rw [hrun]
    obtain ⟨c, b⟩ := c
    cases c
    · exact ih _ (min 12 (k + 1)) (by omega) (zoomIn_quarters L b w k hk hs)
    · exact ih _ (max 2 (k - 1)) (by omega) (zoomOut_quarters L b w k hk hs)

/-- Zooming in `n` times from `k / 4` leads to `min 12 (k + n) / 4`. -/
theorem runZoom_in (L : Collaborators) (cs : List (ZoomCmd × Bool)) :
    ∀ (w : World) (k : Nat), (∀ c ∈ cs, c.1 = ZoomCmd.zoomIn) → 2 ≤ k ∧ k ≤ 12 →
      w.app.scale = (k : ℚ) / 4 →
      (runZoom L cs w).app.scale = ((min 12 (k + cs.length) : Nat) : ℚ) / 4 := by
  induction cs with
  | nil =>
    intro w k _ hk hs
    simp only [runZoom, List.foldl_nil, List.length_nil, Nat.add_zero, Nat.min_eq_right hk.2]
    exact hs
  | cons c cs ih =>
    intro w k hc hk hs
    have hrun : runZoom L (c :: cs) w = runZoom L cs (ZoomCmd.run L c w) := rfl
    have hc1 : c.1 = ZoomCmd.zoomIn := hc c (List.mem_cons_self _ _)
    have hstep : (ZoomCmd.run L c w).app.scale = ((min 12 (k + 1) : Nat) : ℚ) / 4 := by
      unfold ZoomCmd.run
      rw [hc1]
      exact zoomIn_quarters L c.2 w k hk hs
    rw [hrun, ih _ (min 12 (k + 1)) (fun c hm => hc c (List.mem_cons_of_mem _ hm)) (by omega)
      hstep]
    congr 2
    simp only [List.length_cons]
    omega

/-- Zooming out `n` times from `k / 4` leads to `max 2 (k - n) / 4`. -/
theorem runZoom_out (L : Collaborators) (cs : List (ZoomCmd × Bool)) :
    ∀ (w : World) (k : Nat), (∀ c ∈ cs, c.1 = ZoomCmd.zoomOut) → 2 ≤ k ∧ k ≤ 12 →
      w.app.scale = (k : ℚ) / 4 →
      (runZoom L cs w).app.scale = ((max 2 (k - cs.length) : Nat) : ℚ) / 4 := by
  induction cs with
  | nil =>
    intro w k _ hk hs
    simp only [runZoom, List.foldl_nil, List.length_nil, Nat.sub_zero, Nat.max_eq_right hk.1]
    exact hs
  | cons c cs ih =>
    intro w k hc hk hs
    have hrun : runZoom L (c :: cs) w = runZoom L cs (ZoomCmd.run L c w) := rfl
    have hc1 : c.1 = ZoomCmd.zoomOut := hc c (List.mem_cons_self _ _)
    have hstep : (ZoomCmd.run L c w).app.scale = ((max 2 (k - 1) : Nat) : ℚ) / 4 := by
      unfold ZoomCmd.run
      rw [hc1]
      exact zoomOut_quarters L c.2 w k hk hs
    rw [hrun, ih _ (max 2 (k - 1)) (fun c hm => hc c (List.mem_cons_of_mem _ hm)) (by omega)
      hstep]
    congr 2
    simp only [List.length_cons]
    omega

/-- C10. Starting from the default scale 1.0, after every finite sequence of
`zoomIn` / `zoomOut` calls the scale lies in `[0.5, 3.0]`. `zoomIn` raises the scale by
exactly 0.25 when it is at most 2.75, `zoomOut` lowers it by exactly 0.25 when it is at
least 0.75, and neither writes another field of `AppState`. `zoomIn` at 3.0 and `zoomOut`
at 0.5 change nothing. From any state reached, ten or more `zoomIn` calls in a row leave
the scale at 3.0 and ten or more `zoomOut` calls in a row leave it at 0.5. -/
theorem zoom_clamped (L : Collaborators) (w : World) (h : w.app.scale = 1.0) :
    (∀ cs : List (ZoomCmd × Bool),
      0.5 ≤ (runZoom L cs w).app.scale ∧ (runZoom L cs w).app.scale ≤ 3.0) ∧
    (∀ (bound : Bool) (v : World), v.app.scale ≤ 2.75 →
      (PDFRenderer.zoomIn L bound v).app = { v.app with scale := v.app.scale + 0.25 }) ∧
    (∀ (bound : Bool) (v : World), 0.75 ≤ v.app.scale →
      (PDFRenderer.zoomOut L bound v).app = { v.app with scale := v.app.scale - 0.25 }) ∧
    (∀ (bound : Bool) (v : World), v.app.scale = 3.0 → PDFRenderer.zoomIn L bound v = v) ∧
    (∀ (bound : Bool) (v : World), v.app.scale = 0.5 → PDFRenderer.zoomOut L bound v = v) ∧
    (∀ cs ins : List (ZoomCmd × Bool), (∀ c ∈ ins, c.1 = ZoomCmd.zoomIn) → 10 ≤ ins.length →
      (runZoom L ins (runZoom L cs w)).app.scale = 3.0) ∧
    (∀ cs outs : List (ZoomCmd × Bool), (∀ c ∈ outs, c.1 = ZoomCmd.zoomOut) →
      10 ≤ outs.length → (runZoom L outs (runZoom L cs w)).app.scale = 0.5) := by
  have h4 : w.app.scale = ((4 : Nat) : ℚ) / 4 := by rw [h]; norm_num
  refine ⟨?_, ?_, ?_, ?_, ?_, ?_, ?_⟩
  · intro cs
    obtain ⟨k, ⟨hk1, hk2⟩, hs⟩ := runZoom_quarters L cs w 4 (by omega) h4
    have h1 : (2 : ℚ) ≤ k := by exact_mod_cast hk1
    have h2 : (k : ℚ) ≤ 12 := by exact_mod_cast hk2
    rw [hs]
    constructor
    · norm_num; linarith
    · norm_num; linarith
  · intro b v hv
    rw [zoomIn_app, if_pos (by norm_num at hv ⊢; linarith),
      min_eq_right (by norm_num at hv ⊢; linarith)]
  · intro b v hv
    rw [zoomOut_app, if_pos (by norm_num at hv ⊢; linarith),
      max_eq_right (by norm_num at hv ⊢; linarith)]
  · intro b v hv
    unfold PDFRenderer.zoomIn
    rw [if_neg (by rw [hv]; exact lt_irrefl _)]
  · intro b v hv
    unfold PDFRenderer.zoomOut
    rw [if_neg (by rw [hv]; exact lt_irrefl _)]
  · intro cs ins hin hlen
    obtain ⟨k, hk, hs⟩ := runZoom_quarters L cs w 4 (by omega) h4
    rw [runZoom_in L ins _ k hin hk hs, Nat.min_eq_left (by omega)]
    norm_num
  · intro cs outs hout hlen
    obtain ⟨k, hk, hs⟩ := runZoom_quarters L cs w 4 (by omega) h4
    rw [runZoom_out L outs _ k hout hk hs, Nat.max_eq_left (by omega)]
    norm_num

/-- C10 from the state at application start: one `zoomIn` gives 1.25, and
after ten of them the scale is 3.0; ten `zoomOut` give 0.5. -/
theorem zoom_clamped_witness :
    Example.start.app.scale = 1.0 ∧
    (PDFRenderer.zoomIn Example.lib true Example.start).app.scale = 1.25 ∧
    (runZoom Example.lib (List.replicate 10 (ZoomCmd.zoomIn, true)) Example.start).app.scale =
      3.0 ∧
    (runZoom Example.lib (List.replicate 10 (ZoomCmd.zoomOut, false)) Example.start).app.scale =
      0.5 := by
  have h1 : Example.start.app.scale = 1.0 := by norm_num [Example.start, AppState.empty]
  have h := zoom_clamped Example.lib Example.start h1
  refine ⟨h1, ?_, ?_, ?_⟩
  · rw [h.2.1 true Example.start (by rw [h1]; norm_num), h1]
    norm_num
  · have h3 := h.2.2.2.2.2.1 [] (List.replicate 10 (ZoomCmd.zoomIn, true))
      (fun c hc => by rw [List.eq_of_mem_replicate hc]) (by simp)
    rw [show runZoom Example.lib [] Example.start = Example.start from rfl] at h3
    exact h3
  · have h3 := h.2.2.2.2.2.2 [] (List.replicate 10 (ZoomCmd.zoomOut, false))
      (fun c hc => by rw [List.eq_of_mem_replicate hc]) (by simp)
    rw [show runZoom Example.lib [] Example.start = Example.start from rfl] at h3
    exact h3

/-! ## Asynchronous execution -/

/-- With nothing in flight, nothing is resumed. -/
theorem drain_nil (L : Collaborators) (n : Nat) (w : World) :
    Browser.drain L n ⟨w, []⟩ = ⟨w, []⟩ := by
  induction n with
  | zero => rfl
  | succ n ih => simpa [Browser.drain, Browser.settle] using ih

/-- With nothing in flight, no promise settles. -/
theorem settle_nil (L : Collaborators) (i : Nat) (w : World) :
    Browser.settle L i ⟨w, []⟩ = ⟨w, []⟩ := by
  simp [Browser.settle]

/-- One step of a lone operation. -/
theorem settle_single (L : Collaborators) (t : Suspended) (w : World) :
    Browser.settle L 0 ⟨w, [t]⟩ =
      ⟨(Suspended.resume L t w).1, (Suspended.resume L t w).2.toList⟩ := by
  unfold Browser.settle
  cases h : (Suspended.resume L t w).2 <;> simp [h]

/-- Run alone, `extractPages` split at its `await`s does what the method run
to completion does. -/
theorem extractPages_alone (L : Collaborators) (startPage endPage : Int) (w : World) :
    Browser.drain L 3 ⟨(PDFProcessor.extractPages.start startPage endPage w).1,
        (PDFProcessor.extractPages.start startPage endPage w).2.toList⟩ =
      ⟨PDFProcessor.extractPages L startPage endPage w, []⟩ := by
  unfold PDFProcessor.extractPages.start PDFProcessor.extractPages
  cases hd : w.app.pdfLibDoc with
  | none => simp [drain_nil]
  | some doc =>
    simp only [Option.toList, Browser.drain, settle_single,
      Suspended.resume, Utils.showLoading, hd, Option.bind,
      PDFProcessor.extractPages.newPdf, PDFProcessor.extractPages.pageIndices]
    cases hcp : copyPages doc (PDFProcessor.extractPages.loop
        (min w.app.totalPages endPage - max 0 (startPage - 1)).toNat
        (max 0 (startPage - 1)).toNat (min w.app.totalPages endPage)) with
    | none => simp [settle_single, Suspended.resume, Suspended.fail, Browser.settle]
    | some copied =>
      simp only [settle_single, Suspended.resume, Option.toList]
      by_cases hs : L.save (addDefaultPage
          (List.foldl (fun newPdf page => newPdf ++ [page]) [] copied)) = true
      · simp [hs]
      · simp [hs, Suspended.fail]

/-- Run alone, the extract-range listener does what it does when the method
runs to completion. -/
theorem extractPagesClick_alone (L : Collaborators) (startValue endValue : Option Int)
    (w : World) :
    Browser.drain L 3 (Browser.listen L (.extractPagesClick startValue endValue) ⟨w, []⟩) =
      ⟨extractPagesClick L startValue endValue w, []⟩ := by
  unfold Browser.listen Listener.run extractPagesClick
  cases hc : extractPagesClick.check startValue endValue w.app with
  | error t => simp only [hc, Option.toList, List.nil_append, drain_nil]
  | ok p =>
    obtain ⟨a, e⟩ := p
    simp only [hc, List.nil_append]
    exact extractPages_alone L a e w

/-- Run alone, `loadFromFile` split at its `await`s does what the method run
to completion does. -/
theorem loadFromFile_alone (L : Collaborators) (file : File) (w : World) :
    Browser.drain L 4 ⟨(PDFLoader.loadFromFile.start L file w).1,
        (PDFLoader.loadFromFile.start L file w).2.toList⟩ =
      ⟨PDFLoader.loadFromFile L file w, []⟩ := by
  unfold PDFLoader.loadFromFile.start PDFLoader.loadFromFile
  simp only [Option.toList, Browser.drain, settle_single, Suspended.resume]
  cases hb : L.arrayBuffer file with
  | none => simp [Browser.settle]
  | some buf =>
    simp only [settle_single, Suspended.resume, Option.toList, Option.bind]
    cases hg : L.getDocument buf with
    | none => simp [Browser.settle, settle_single, Suspended.resume]
    | some d =>
      simp only [settle_single, Suspended.resume, Option.toList, Option.bind]
      cases hl : L.load buf with
      | none => simp [Browser.settle, settle_single, Suspended.resume]
      | some ed => simp [settle_single, Suspended.resume]

/-- Run alone, `addWatermark` split at its `await` does what the method run to
completion does. -/
theorem addWatermark_alone (L : Collaborators) (text font : String)
    (size opacity rotation : Int) (color : String) (w : World) :
    Browser.drain L 1 ⟨(PDFProcessor.addWatermark.start L text font size opacity rotation
          color w).1,
        (PDFProcessor.addWatermark.start L text font size opacity rotation color w).2.toList⟩ =
      ⟨PDFProcessor.addWatermark L text font size opacity rotation color w, []⟩ := by
  unfold PDFProcessor.addWatermark.start PDFProcessor.addWatermark
  cases hd : w.app.pdfLibDoc with
  | none => simp [drain_nil]
  | some doc =>
    by_cases ht : jsTrim text = ""
    · simp [ht, drain_nil]
    · by_cases h2 :
          (PDFProcessor.addWatermark.loop L text font size opacity rotation color doc).2 = true
      · by_cases h3 : L.save (addDefaultPage
            (PDFProcessor.addWatermark.loop L text font size opacity rotation color doc).1) = true
        · simp [ht, h2, h3, Browser.drain, settle_single, Suspended.resume, Utils.showLoading,
            Utils.hideLoading, Utils.showToast, PDFProcessor.downloadPdf]
        · simp [ht, h2, h3, Browser.drain, settle_single, Suspended.resume, Suspended.fail,
            Utils.showLoading, Utils.hideLoading, Utils.showToast]
      · simp [ht, h2, drain_nil]

/-- Run alone, `downloadCurrentPdf` split at its `await` does what the method
run to completion does. -/
theorem downloadCurrentPdf_alone (L : Collaborators) (w : World) :
    Browser.drain L 1 ⟨(PDFProcessor.downloadCurrentPdf.start L w).1,
        (PDFProcessor.downloadCurrentPdf.start L w).2.toList⟩ =
      ⟨PDFProcessor.downloadCurrentPdf L w, []⟩ := by
  unfold PDFProcessor.downloadCurrentPdf.start PDFProcessor.downloadCurrentPdf
  cases hd : w.app.pdfLibDoc with
  | none => simp [drain_nil]
  | some doc =>
    by_cases h3 : L.save (addDefaultPage doc) = true
    · simp [h3, Browser.drain, settle_single, Suspended.resume, Utils.showLoading,
        Utils.hideLoading, Utils.showToast, PDFProcessor.downloadPdf]
    · simp [h3, Browser.drain, settle_single, Suspended.resume, Suspended.fail,
        Utils.showLoading, Utils.hideLoading, Utils.showToast]

/-- Resuming `m + k` times is resuming `k` times, then `m` times. -/
theorem drain_add (L : Collaborators) (m k : Nat) : ∀ b : Browser,
    Browser.drain L (m + k) b = Browser.drain L m (Browser.drain L k b) := by
  induction k with
  | zero => intro b; rfl
  | succ k ih =>
    intro b
    show Browser.drain L (m + k) (Browser.settle L 0 b) = _
    rw [ih]
    rfl

/-- Run alone from loop index `i`, the loop of `splitAllPages` split at its
`await`s, and the steps after it, end as the loop run to completion says. -/
theorem splitLoop_alone (L : Collaborators) (doc : PDFDocument) (w : World)
    (hd : w.app.pdfLibDoc = some doc) (fuel : Nat) :
    ∀ (i : Nat) (files : List (String × PDFDocument)), i + fuel = doc.length →
      Browser.drain L (3 * fuel + 1)
          ⟨w, [PDFProcessor.splitAllPages.next L doc.length i files]⟩ =
        ⟨match PDFProcessor.splitAllPages.loop L doc fuel i files with
          | none => Utils.hideLoading (Utils.showToast "Failed to split pages" .error w)
          | some files =>
            if L.generateZip files then
              Utils.hideLoading (Utils.showToast "All pages split successfully" .success
                { w with downloads :=
                    w.downloads ++ [Download.zip "split_pages.zip" "extracted_pages" files] })
            else Utils.hideLoading (Utils.showToast "Failed to split pages" .error w), []⟩ := by
  induction fuel with
  | zero =>
    intro i files h
    have hn : ¬ i < doc.length := by omega
    simp only [PDFProcessor.splitAllPages.next, hn, if_false, Nat.mul_zero, Nat.zero_add,
      Browser.drain, settle_single, Suspended.resume, PDFProcessor.splitAllPages.loop]
    by_cases hz : L.generateZip files = true
    · simp [hz]
    · simp [hz, Suspended.fail]
  | succ n ih =>
    intro i files h
    have hlt : i < doc.length := by omega
    have hfuel : 3 * (n + 1) + 1 = (3 * n + 1) + 3 := by omega
    rw [hfuel, drain_add]
    simp only [PDFProcessor.splitAllPages.next, hlt, if_true, Browser.drain, settle_single,
      Suspended.resume, hd, Option.bind, Option.toList, PDFProcessor.splitAllPages.loop]
    cases hc : copyPages doc [i] with
    | none => simp [Browser.settle, drain_nil, Suspended.fail]
    | some copied =>
      cases copied with
      | nil => simp [Browser.settle, drain_nil, Suspended.fail]
      | cons p ps =>
        simp only [settle_single, Suspended.resume, Option.toList, List.nil_append]
        by_cases hs : L.save [p] = true
        · simp only [hs, if_true, Option.toList]
          have hnext := ih (i + 1) (files ++ [("page_" ++ toString (i + 1) ++ ".pdf", [p])])
            (by omega)
          exact hnext
        · simp [hs, Suspended.fail, drain_nil, settle_nil]

/-- Run alone, `splitAllPages` split at its `await`s does what the method run
to completion does. -/
theorem splitAllPages_alone (L : Collaborators) (w : World) (doc : PDFDocument)
    (hd : w.app.pdfLibDoc = some doc) :
    Browser.drain L (3 * doc.length + 1) ⟨(PDFProcessor.splitAllPages.start L w).1,
        (PDFProcessor.splitAllPages.start L w).2.toList⟩ =
      ⟨PDFProcessor.splitAllPages L w, []⟩ := by
  unfold PDFProcessor.splitAllPages.start PDFProcessor.splitAllPages
  simp only [hd, Option.toList]
  rw [splitLoop_alone L doc (Utils.showLoading "Splitting pages..." w) hd doc.length 0 []
    (by omega)]
  cases PDFProcessor.splitAllPages.loop L doc doc.length 0 [] with
  | none => rfl
  | some files =>
    by_cases hz : L.generateZip files = true
    · simp [hz, Utils.showToast, Utils.hideLoading, Utils.showLoading]
    · simp [hz]

/-- When a resumed operation ends, its `finally` block has hidden the overlay. -/
theorem resume_end_hides (L : Collaborators) (t : Suspended) (w : World)
    (h : (Suspended.resume L t w).2 = none) : (Suspended.resume L t w).1.loading = none := by
  cases t <;> simp only [Suspended.resume, Suspended.fail] at h ⊢ <;>
    (repeat' split) <;> simp_all [Utils.hideLoading]

/-- A download click on a loaded document: `save()` is called on the edit
handle and the operation is suspended at it. -/
theorem downloadPdfClick_listen (L : Collaborators) (b : Browser) (doc : PDFDocument)
    (hdoc : b.world.app.pdfLibDoc = some doc) :
    (Browser.listen L Listener.downloadPdfClick b).world.app.pdfLibDoc =
      some (addDefaultPage doc) ∧
    (Browser.listen L Listener.downloadPdfClick b).inFlight =
      b.inFlight ++ [Suspended.downloadSave (addDefaultPage doc) (L.save (addDefaultPage doc))] ∧
    (Browser.listen L Listener.downloadPdfClick b).world.loading =
      some "Preparing download..." := by
  simp [Browser.listen, Listener.run, PDFProcessor.downloadCurrentPdf.start, hdoc,
    Utils.showLoading]

/-- After `n` download clicks in a row on a loaded document, `n` more
operations are in flight. -/
theorem downloadPdfClick_replicate (L : Collaborators) (n : Nat) :
    ∀ (b : Browser) (doc : PDFDocument), b.world.app.pdfLibDoc = some doc →
      (Browser.run L (List.replicate n (Event.listen Listener.downloadPdfClick)) b).inFlight.length
        = b.inFlight.length + n := by
  induction n with
  | zero => intro b _ _; rfl
  | succ n ih =>
    intro b doc hdoc
    obtain ⟨h1, h2, -⟩ := downloadPdfClick_listen L b doc hdoc
    have hrun : Browser.run L (List.replicate (n + 1) (Event.listen Listener.downloadPdfClick)) b =
        Browser.run L (List.replicate n (Event.listen Listener.downloadPdfClick))
          (Browser.listen L Listener.downloadPdfClick b) := rfl
    rw [hrun, ih _ _ h1, h2]
    simp
    omega

/-- C11, as stated, fails. On the five-page document the extract button is
clicked for pages 2 to 4 and, while that extraction is suspended at its first `await`,
the download button is clicked. The download is started at once: it replaces the overlay
message, calls `save()` and suspends, so two operations are in flight. When the download
then ends, `a.pdf` is delivered and its `finally` block hides the overlay although the
extraction is still in flight. -/
theorem singleFlight_not_enforced :
    (Browser.run Example.lib Example.twoClicks Example.browser5).inFlight =
      [Suspended.extractCreate 2 4 1 4, Suspended.downloadSave Example.doc5 true] ∧
    (Browser.run Example.lib Example.twoClicks Example.browser5).inFlight.length = 2 ∧
    (Browser.run Example.lib Example.twoClicks Example.browser5).world.loading =
      some "Preparing download..." ∧
    (Browser.run Example.lib Example.twoClicksThenDownload Example.browser5).world.downloads =
      [Download.pdf "a.pdf" Example.doc5] ∧
    (Browser.run Example.lib Example.twoClicksThenDownload Example.browser5).inFlight =
      [Suspended.extractCreate 2 4 1 4] ∧
    (Browser.run Example.lib Example.twoClicksThenDownload Example.browser5).world.loading =
      none := by
  refine ⟨?_, ?_, ?_, ?_, ?_, ?_⟩ <;> decide

/-- C11, amended. No listener looks at what is in flight. With a document
loaded, whatever operations are suspended: an extract click whose checks pass, a split
click, a download click and the selection of a file of type `application/pdf` each start
their operation at once; it shows its overlay message, runs to its first `await` and joins
the operations in flight, the others staying suspended as they were. So `n` download
clicks in a row put `n` more operations in flight. A watermark click with text that is
not blank never reaches an `await` on a document with pages: it fails at once with its
error toast and hides the overlay; on a document without pages it reaches `save()` and
joins the operations in flight. Whenever an operation in flight ends, its `finally` block
hides the overlay and the other operations stay in flight. -/
theorem listen_starts_at_once (L : Collaborators) (b : Browser) (doc : PDFDocument)
    (hdoc : b.world.app.pdfLibDoc = some doc) :
    (∀ (startValue endValue : Option Int) (start end_ : Int),
      extractPagesClick.check startValue endValue b.world.app = Except.ok (start, end_) →
      (Browser.listen L (Listener.extractPagesClick startValue endValue) b).inFlight =
        b.inFlight ++ [Suspended.extractCreate start end_ (max 0 (start - 1))
          (min b.world.app.totalPages end_)] ∧
      (Browser.listen L (Listener.extractPagesClick startValue endValue) b).world.loading =
        some "Extracting pages...") ∧
    ((Browser.listen L Listener.splitAllClick b).inFlight =
        b.inFlight ++ [PDFProcessor.splitAllPages.next L doc.length 0 []] ∧
      (Browser.listen L Listener.splitAllClick b).world.loading = some "Splitting pages...") ∧
    (∀ (text font : String) (size opacity rotation : Int) (color : String),
      jsTrim text ≠ "" → doc ≠ [] →
      (Browser.listen L (Listener.applyWatermarkClick text font size opacity rotation color)
          b).inFlight = b.inFlight ∧
      (Browser.listen L (Listener.applyWatermarkClick text font size opacity rotation color)
          b).world =
        { b.world with
          toasts := b.world.toasts ++ [⟨"Failed to add watermark", ToastType.error⟩],
          loading := none }) ∧
    (∀ (text font : String) (size opacity rotation : Int) (color : String),
      jsTrim text ≠ "" → doc = [] →
      (Browser.listen L (Listener.applyWatermarkClick text font size opacity rotation color)
          b).inFlight =
        b.inFlight ++ [Suspended.watermarkSave [blankPage] (L.save [blankPage])] ∧
      (Browser.listen L (Listener.applyWatermarkClick text font size opacity rotation color)
          b).world.loading = some "Adding watermark...") ∧
    ((Browser.listen L Listener.downloadPdfClick b).inFlight =
        b.inFlight ++
          [Suspended.downloadSave (addDefaultPage doc) (L.save (addDefaultPage doc))] ∧
      (Browser.listen L Listener.downloadPdfClick b).world.loading =
        some "Preparing download...") ∧
    (∀ file : File, file.type = "application/pdf" →
      (Browser.listen L (Listener.fileInputChange (some file)) b).inFlight =
        b.inFlight ++ [Suspended.loadArrayBuffer file (L.arrayBuffer file)] ∧
      (Browser.listen L (Listener.fileInputChange (some file)) b).world.loading =
        some "Loading PDF...") ∧
    (∀ n : Nat,
      (Browser.run L (List.replicate n (Event.listen Listener.downloadPdfClick)) b).inFlight.length
        = b.inFlight.length + n) ∧
    (∀ (i : Nat) (t : Suspended), b.inFlight[i]? = some t →
      (Suspended.resume L t b.world).2 = none →
      (Browser.settle L i b).world.loading = none ∧
      (Browser.settle L i b).inFlight = b.inFlight.eraseIdx i) := by
  refine ⟨?_, ?_, ?_, ?_, (downloadPdfClick_listen L b doc hdoc).2, ?_,
    fun n => downloadPdfClick_replicate L n b doc hdoc, ?_⟩
  · intro sv ev a e hc
    simp [Browser.listen, Listener.run, hc, PDFProcessor.extractPages.start, hdoc,
      Utils.showLoading]
  · simp [Browser.listen, Listener.run, PDFProcessor.splitAllPages.start, hdoc,
      Utils.showLoading]
  · intro text font size opacity rotation color ht hpages
    have hne : decide (doc = []) = false := by simpa using hpages
    simp only [Browser.listen, Listener.run, PDFProcessor.addWatermark.start, hdoc, ht,
      if_false, watermarkLoop_eq, hne, Bool.false_eq_true, Option.toList, List.append_nil,
      Utils.showLoading, Utils.hideLoading, Utils.showToast, true_and]
    rw [AppState.set_pdfLibDoc_self b.world.app doc hdoc]
  · intro text font size opacity rotation color ht hempty
    subst hempty
    simp [Browser.listen, Listener.run, PDFProcessor.addWatermark.start, hdoc, ht,
      watermarkLoop_eq, addDefaultPage, Utils.showLoading]
  · intro file hf
    simp [Browser.listen, Listener.run, PDFLoader.loadFromFile.start, hf, Utils.showLoading]
  · intro i t hi hend
    unfold Browser.settle
    simp only [hi, hend]
    exact ⟨resume_end_hides L t b.world hend, trivial⟩

/-- C11, amended, with the extraction of pages 2 to 4 already in flight: a
download click starts a second operation. -/
theorem listen_starts_at_once_witness :
    (Browser.listen Example.lib (Listener.extractPagesClick (some 2) (some 4))
      Example.browser5).world.app.pdfLibDoc = some Example.doc5 ∧
    (Browser.listen Example.lib Listener.downloadPdfClick
      (Browser.listen Example.lib (Listener.extractPagesClick (some 2) (some 4))
        Example.browser5)).inFlight =
      [Suspended.extractCreate 2 4 1 4, Suspended.downloadSave Example.doc5 true] :=
  ⟨rfl, (listen_starts_at_once Example.lib
    (Browser.listen Example.lib (Listener.extractPagesClick (some 2) (some 4))
      Example.browser5) Example.doc5 rfl).2.2.2.2.1.1⟩

end PDFClip
